import Mathlib

/-!
Verification of the metadata normalization and enrichment engine of the
Image-Extractor repository (src/core/gps_parser.py, src/core/device_identifier.py,
src/core/metadata_extractor.py).

Modelling conventions:
* Python values are modelled by the inductive type `Value`; numeric values
  (Python int/float) are modelled with `ℤ`/`ℚ` exact arithmetic.  Where the
  source formats a float with `str()`/f-strings without a precision, the
  rendering is taken as a parameter `fs : ℚ → String` (CPython's shortest
  round-trip repr is not reimplemented); `"%.Nf"`-style fixed formatting is
  implemented exactly over `ℚ`.
* Python dicts are association lists with dict semantics: `getA` is key
  lookup, `setA` is item assignment (replace in place, else append), `updA`
  is `dict.update`.
* Exceptions are modelled with `Except`/`Option`: a function that can raise
  an uncaught exception returns `Except PyErr _`; `try/except` blocks that
  swallow errors become `Option`-valued helpers returning `none`.
-/

namespace ImgX

/-! ## Characters and strings -/

def lowerChar (c : Char) : Char :=
  if 'A' ≤ c && c ≤ 'Z' then Char.ofNat (c.toNat + 32) else c

/-- Python `str.lower()` (ASCII range; the keys and names compared in the
source are ASCII). -/
def lowerStr (s : String) : String := String.mk (s.data.map lowerChar)

def listStarts : List Char → List Char → Bool
  | [], _ => true
  | _ :: _, [] => false
  | p :: ps, c :: cs => p == c && listStarts ps cs

def listHasSub (pat : List Char) : List Char → Bool
  | [] => listStarts pat []
  | c :: cs => listStarts pat (c :: cs) || listHasSub pat cs

/-- Python `sub in hay` for strings. -/
def strHas (hay sub : String) : Bool := listHasSub sub.data hay.data

/-- Python `s.startswith(t)`. -/
def strStarts (s t : String) : Bool := listStarts t.data s.data

/-- Python `s.endswith(t)`. -/
def strEnds (s t : String) : Bool := listStarts t.data.reverse s.data.reverse

/-- Python `\s` / `str.strip()` whitespace (ASCII). -/
def isSpaceCh (c : Char) : Bool :=
  c == ' ' || c == '\t' || c == '\n' || c == '\r' || c == '\x0b' || c == '\x0c'

def stripWs (cs : List Char) : List Char :=
  ((cs.dropWhile isSpaceCh).reverse.dropWhile isSpaceCh).reverse

/-- Python `str.strip()`. -/
def strStrip (s : String) : String := String.mk (stripWs s.data)

/-- Strip a given character from both ends (Python `str.strip('\x00')`). -/
def stripCh (x : Char) (cs : List Char) : List Char :=
  ((cs.dropWhile (· == x)).reverse.dropWhile (· == x)).reverse

mutual
/-- `re.sub(r'\s+', ' ', s)`: collapse every whitespace run to one space. -/
def collapseWs : List Char → List Char
  | [] => []
  | c :: rest =>
    if isSpaceCh c then ' ' :: collapseSkip rest
    else c :: collapseWs rest
/-- Inside a whitespace run: skip further whitespace. -/
def collapseSkip : List Char → List Char
  | [] => []
  | c :: rest =>
    if isSpaceCh c then collapseSkip rest
    else c :: collapseWs rest
end

/-! ## Decimal digits and number rendering -/

def digitsVal (cs : List Char) : ℕ := cs.foldl (fun a c => 10 * a + (c.toNat - 48)) 0

/-- Worker for `natDigits`; the first argument is recursion fuel (kept
structural so that the kernel can evaluate it). -/
def natDigitsAux : ℕ → ℕ → List Char → List Char
  | 0, _, acc => acc
  | fuel + 1, n, acc =>
    if n < 10 then Char.ofNat (48 + n) :: acc
    else natDigitsAux fuel (n / 10) (Char.ofNat (48 + n % 10) :: acc)

/-- Decimal digits of a natural number, most significant first
(Python `str(n)` for `n : ℕ`). -/
def natDigits (n : ℕ) : List Char := natDigitsAux (n + 1) n []

def natStr (n : ℕ) : String := String.mk (natDigits n)

/-- Python `str(n)` for `n : ℤ`. -/
def intStr (n : ℤ) : String :=
  if n < 0 then "-" ++ natStr (-n).toNat else natStr n.toNat

/-- Zero-pad a digit list on the left to width `k` (`"%0kd"`). -/
def padZeros (k : ℕ) (cs : List Char) : List Char :=
  List.replicate (k - cs.length) '0' ++ cs

/-- Python `round()`: round half to even, idealized over exact rationals. -/
def pyRound (q : ℚ) : ℤ :=
  let f := ⌊q⌋
  let r := q - f
  if r < 1 / 2 then f
  else if 1 / 2 < r then f + 1
  else if f % 2 = 0 then f else f + 1

/-- Python `round(q, d)`. -/
def roundDp (d : ℕ) (q : ℚ) : ℚ := (pyRound (q * 10 ^ d) : ℚ) / 10 ^ d

/-- Python `int(q)` for a float: truncation toward zero. -/
def pyTrunc (q : ℚ) : ℤ := if q < 0 then -⌊-q⌋ else ⌊q⌋

/-- Digit string of `n` viewed as a fixed-point decimal with `k` fractional
digits (helper for `fmtFixed`). -/
def fmtFixedNat (k : ℕ) (n : ℕ) : List Char :=
  natDigits (n / 10 ^ k) ++ (if k = 0 then [] else '.' :: padZeros k (natDigits (n % 10 ^ k)))

/-- Python fixed formatting `f"{q:.kf}"`, idealized as exact decimal rounding
(the source only formats values whose decimal expansion is exact at the
requested precision, so the binary-float tie-breaking cannot differ). -/
def fmtFixed (k : ℕ) (q : ℚ) : String :=
  if q < 0 then String.mk ('-' :: fmtFixedNat k (⌊-q * 10 ^ k + 1 / 2⌋.toNat))
  else String.mk (fmtFixedNat k (⌊q * 10 ^ k + 1 / 2⌋.toNat))

/-! ## Parsing numbers from strings -/

/-- Parse a non-empty run of decimal digits together with the rest. -/
def digitRun (cs : List Char) : List Char × List Char :=
  (cs.takeWhile Char.isDigit, cs.dropWhile Char.isDigit)

/-- Python `float(s)` on a string: optional sign, digits with optional
fractional part.  Exponent/`inf`/`nan` forms, which do not occur in the
metadata covered by the claims, are not modelled (result `none`). -/
def parseFloatChars (cs0 : List Char) : Option ℚ :=
  let cs1 := stripWs cs0
  let (sgn, cs2) : ℚ × List Char :=
    match cs1 with
    | '-' :: r => (-1, r)
    | '+' :: r => (1, r)
    | r => (1, r)
  let (ds, cs3) := digitRun cs2
  match cs3 with
  | '.' :: cs4 =>
    let (fsD, cs5) := digitRun cs4
    if (ds.isEmpty && fsD.isEmpty) || !cs5.isEmpty then none
    else some (sgn * ((digitsVal ds : ℚ) + (digitsVal fsD : ℚ) / 10 ^ fsD.length))
  | [] => if ds.isEmpty then none else some (sgn * (digitsVal ds : ℚ))
  | _ => none

/-- Python `int(s)` on a string: optional sign then digits only. -/
def parseIntChars (cs0 : List Char) : Option ℤ :=
  let cs1 := stripWs cs0
  let (sgn, cs2) : ℤ × List Char :=
    match cs1 with
    | '-' :: r => (-1, r)
    | '+' :: r => (1, r)
    | r => (1, r)
  let (ds, cs3) := digitRun cs2
  if ds.isEmpty || !cs3.isEmpty then none else some (sgn * (digitsVal ds : ℤ))

/-! ## Python values

A tag value as handled by the source: scalar, string, byte sequence,
`fractions.Fraction`, list, tuple or nested dict.  Numbers are exact
(`ℤ`/`ℚ`); `datetime` objects, which only arise from filesystem metadata
outside the claims' scope, are not modelled. -/

inductive Value where
  | pyNone
  | pyBool (b : Bool)
  | pyInt (n : ℤ)
  | pyFloat (q : ℚ)
  | pyStr (s : String)
  | pyBytes (bs : List ℕ)
  | pyFrac (num den : ℤ)
  | pyList (vs : List Value)
  | pyTuple (vs : List Value)
  | pyDict (kvs : List (String × Value))
deriving Repr

/-- Python truthiness of a value. -/
def truthy : Value → Bool
  | .pyNone => false
  | .pyBool b => b
  | .pyInt n => n != 0
  | .pyFloat q => q != 0
  | .pyStr s => s != ""
  | .pyBytes bs => !bs.isEmpty
  | .pyFrac n _ => n != 0
  | .pyList vs => !vs.isEmpty
  | .pyTuple vs => !vs.isEmpty
  | .pyDict kvs => !kvs.isEmpty

/-- Python `==` against a string literal. -/
def valEqStr (v : Value) (s : String) : Bool :=
  match v with
  | .pyStr t => t == s
  | _ => false

/-- `isinstance(v, (int, float))`; Python `bool` is a subtype of `int`. -/
def isNumericVal : Value → Bool
  | .pyBool _ => true
  | .pyInt _ => true
  | .pyFloat _ => true
  | _ => false

/-- The rational content of a numeric value. -/
def numQ : Value → ℚ
  | .pyBool b => if b then 1 else 0
  | .pyInt n => n
  | .pyFloat q => q
  | _ => 0

/-- Python `float(v)`; `none` models the `ValueError`/`TypeError` raised on
non-convertible values, which every caller catches. -/
def floatOfValue : Value → Option ℚ
  | .pyBool b => some (if b then 1 else 0)
  | .pyInt n => some n
  | .pyFloat q => some q
  | .pyStr s => parseFloatChars s.data
  | .pyFrac n d => if d = 0 then none else some ((n : ℚ) / d)
  | _ => none

/-- Python `int(v)` (same error convention as `floatOfValue`). -/
def intOfValue : Value → Option ℤ
  | .pyBool b => some (if b then 1 else 0)
  | .pyInt n => some n
  | .pyFloat q => some (pyTrunc q)
  | .pyStr s => parseIntChars s.data
  | _ => none

/-- Decode a byte sequence as ASCII (`bytes.decode('ascii')`). -/
def decodeAscii (bs : List ℕ) : Option String :=
  if bs.all (· < 128) then some (String.mk (bs.map Char.ofNat)) else none

mutual
/-- Python `repr(v)` (containers); the float renderer is the parameter `fs`. -/
def pyReprVal (fs : ℚ → String) : Value → String
  | .pyNone => "None"
  | .pyBool b => if b then "True" else "False"
  | .pyInt n => intStr n
  | .pyFloat q => fs q
  | .pyStr s => "\x27" ++ s ++ "\x27"
  | .pyBytes bs => "b\x27" ++ String.mk (bs.map Char.ofNat) ++ "\x27"
  | .pyFrac n d => "Fraction(" ++ intStr n ++ ", " ++ intStr d ++ ")"
  | .pyList vs => "[" ++ pyReprList fs vs ++ "]"
  | .pyTuple vs => "(" ++ pyReprTup fs vs ++ ")"
  | .pyDict kvs => "\x7b" ++ pyReprKVs fs kvs ++ "\x7d"
def pyReprList (fs : ℚ → String) : List Value → String
  | [] => ""
  | [v] => pyReprVal fs v
  | v :: rest => pyReprVal fs v ++ ", " ++ pyReprList fs rest
def pyReprTup (fs : ℚ → String) : List Value → String
  | [] => ""
  | [v] => pyReprVal fs v ++ ","
  | v :: rest => pyReprVal fs v ++ ", " ++ pyReprList fs rest
def pyReprKVs (fs : ℚ → String) : List (String × Value) → String
  | [] => ""
  | [(k, v)] => "\x27" ++ k ++ "\x27: " ++ pyReprVal fs v
  | (k, v) :: rest => "\x27" ++ k ++ "\x27: " ++ pyReprVal fs v ++ ", " ++ pyReprKVs fs rest
end

/-- Python `str(v)`; falls back to `repr` for containers. -/
def pyStrOfVal (fs : ℚ → String) : Value → String
  | .pyStr s => s
  | v => pyReprVal fs v

/-- Python `f"{v}"` for the numeric values the source interpolates. -/
def pyNumStr (fs : ℚ → String) (v : Value) : String := pyStrOfVal fs v

/-! ## Dicts as association lists -/

/-- A Python dict (insertion-ordered, unique keys). -/
abbrev Meta := List (String × Value)

/-- `d.get(k)` / `d[k]`. -/
def getA (m : Meta) (k : String) : Option Value :=
  match m with
  | [] => none
  | (k', v) :: rest => if k' = k then some v else getA rest k

/-- `k in d`. -/
def memKey (m : Meta) (k : String) : Bool := (getA m k).isSome

/-- `d[k] = v`: replace in place if the key exists, else append. -/
def setA (m : Meta) (k : String) (v : Value) : Meta :=
  match m with
  | [] => [(k, v)]
  | (k', v') :: rest => if k' = k then (k, v) :: rest else (k', v') :: setA rest k v

/-- `d.update(new)`. -/
def updA (m new : Meta) : Meta := new.foldl (fun acc kv => setA acc kv.1 kv.2) m

/-- `k in d and d[k]` (truthy lookup used by alias scans). -/
def getTruthy (m : Meta) (k : String) : Option Value :=
  match getA m k with
  | some v => if truthy v then some v else none
  | none => none

/-- First key of an alias list that is present with a truthy value, together
with its value (the "first matching alias" scan the source repeats). -/
def firstAlias (m : Meta) : List String → Option Value
  | [] => none
  | k :: rest =>
    match getTruthy m k with
    | some v => some v
    | none => firstAlias m rest

/-! ## Matchers for the coordinate regular expressions

The source matches coordinates with `re.search`.  The patterns are encoded
here as explicit backtracking matchers in `re`'s preference order: a `\d+`
group generates its candidate splits longest first (`digitSplits`), an
optional item tries the consuming alternative first (`optSplits`,
`fracSplits`), and `\s*` takes the maximal run (no following atom of these
patterns can match a whitespace character, so no shorter run can succeed).
`re.search` semantics is the scan over start positions, leftmost first. -/

def firstSome {α β : Type} : List α → (α → Option β) → Option β
  | [], _ => none
  | x :: rest, f =>
    match f x with
    | some b => some b
    | none => firstSome rest f

/-- Candidate (consumed, rest) splits for a greedy `\d+`, longest first. -/
def digitSplits (cs : List Char) : List (List Char × List Char) :=
  let ds := cs.takeWhile Char.isDigit
  let rest := cs.dropWhile Char.isDigit
  (List.range ds.length).map fun i => (ds.take (ds.length - i), ds.drop (ds.length - i) ++ rest)

/-- Candidate rests for an optional single character class, greedy first. -/
def optSplits (p : Char → Bool) (cs : List Char) : List (List Char) :=
  match cs with
  | [] => [[]]
  | c :: rest => if p c then [rest, c :: rest] else [c :: rest]

/-- Candidates for an optional fraction `(?:\.\d+)?`: the fractional value
contributed and the rest, greedy first (the fraction's `\d+` is maximal: the
atoms that follow it in the patterns never match a digit). -/
def fracSplits (cs : List Char) : List (ℚ × List Char) :=
  (match cs with
   | c :: rest =>
     if c = '.' then
       let ds := rest.takeWhile Char.isDigit
       if ds.isEmpty then []
       else [((digitsVal ds : ℚ) / 10 ^ ds.length, rest.dropWhile Char.isDigit)]
     else []
   | [] => []) ++ [(0, cs)]

def isQuoteMin (c : Char) : Bool := c == '\'' || c == '′'

def isQuoteSec (c : Char) : Bool := c == '"' || c == '″'

def isDirNSEW (c : Char) : Bool := c == 'N' || c == 'S' || c == 'E' || c == 'W'

def isDirNS (c : Char) : Bool := c == 'N' || c == 'S'

def isDirEW (c : Char) : Bool := c == 'E' || c == 'W'

/-- Backtracking matcher for `(\d+)°\s*(\d+)['′]?\s*(\d+(?:\.\d+)?)["″]?\s*(D)`
(`D` a direction class) at the current position; the continuation `k`
receives the converted captures (`int`, `int`, `float`, direction) and the
remaining input, and its failure backtracks into earlier alternatives. -/
def dmsCoreAt {α : Type} (dirP : Char → Bool) (cs : List Char)
    (k : ℕ → ℕ → ℚ → Char → List Char → Option α) : Option α :=
  firstSome (digitSplits cs) fun dsp =>
  match dsp.2 with
  | c0 :: r2 =>
    if c0 = '°' then
      firstSome (digitSplits (r2.dropWhile isSpaceCh)) fun msp =>
      firstSome (optSplits isQuoteMin msp.2) fun r5 =>
      firstSome (digitSplits (r5.dropWhile isSpaceCh)) fun ssp =>
      firstSome (fracSplits ssp.2) fun fsp =>
      firstSome (optSplits isQuoteSec fsp.2) fun r9 =>
      match r9.dropWhile isSpaceCh with
      | c :: r11 =>
        if dirP c then
          k (digitsVal dsp.1) (digitsVal msp.1) ((digitsVal ssp.1 : ℚ) + fsp.1) c r11
        else none
      | [] => none
    else none
  | [] => none

def matchDmsAt (cs : List Char) : Option (ℕ × ℕ × ℚ × Char) :=
  dmsCoreAt isDirNSEW cs fun d m s dir _ => some (d, m, s, dir)

/-- `re.search` of the DMS pattern `(\d+)°\s*(\d+)['′]?\s*(\d+(?:\.\d+)?)["″]?\s*([NSEW])`. -/
def searchDms : List Char → Option (ℕ × ℕ × ℚ × Char)
  | [] => none
  | c :: rest =>
    match matchDmsAt (c :: rest) with
    | some r => some r
    | none => searchDms rest

def matchSimpleDegAt (cs : List Char) : Option (ℚ × Char) :=
  firstSome (digitSplits cs) fun dsp =>
  firstSome (fracSplits dsp.2) fun fsp =>
  match fsp.2 with
  | '°' :: r =>
    match r.dropWhile isSpaceCh with
    | c :: _ => if isDirNSEW c then some ((digitsVal dsp.1 : ℚ) + fsp.1, c) else none
    | [] => none
  | _ => none

/-- `re.search` of the simple pattern `(\d+(?:\.\d+)?)°\s*([NSEW])`. -/
def searchSimpleDeg : List Char → Option (ℚ × Char)
  | [] => none
  | c :: rest =>
    match matchSimpleDegAt (c :: rest) with
    | some r => some r
    | none => searchSimpleDeg rest

/-- Matcher for a signed decimal `-?\d+\.\d+` at the current position (both
digit runs are maximal: they are followed by `\.` resp. `\s*,`/end, none of
which matches a digit). -/
def signedDecAt (cs : List Char) : Option (ℚ × List Char) :=
  let (sgn, cs1) : ℚ × List Char :=
    match cs with
    | '-' :: r => (-1, r)
    | r => (1, r)
  let (ds, cs2) := digitRun cs1
  if ds.isEmpty then none
  else
    match cs2 with
    | '.' :: cs3 =>
      let (fsD, cs4) := digitRun cs3
      if fsD.isEmpty then none
      else some (sgn * ((digitsVal ds : ℚ) + (digitsVal fsD : ℚ) / 10 ^ fsD.length), cs4)
    | _ => none

def matchDecPairAt (cs : List Char) : Option (ℚ × ℚ) :=
  match signedDecAt cs with
  | some (a, r1) =>
    match r1.dropWhile isSpaceCh with
    | ',' :: r2 =>
      match signedDecAt (r2.dropWhile isSpaceCh) with
      | some (b, _) => some (a, b)
      | none => none
    | _ => none
  | none => none

/-- `re.search` of the decimal pair pattern `(-?\d+\.\d+)\s*,\s*(-?\d+\.\d+)`. -/
def searchDecPair : List Char → Option (ℚ × ℚ)
  | [] => none
  | c :: rest =>
    match matchDecPairAt (c :: rest) with
    | some r => some r
    | none => searchDecPair rest

def matchDmsPairAt (cs : List Char) : Option (ℕ × ℕ × ℚ × Char × ℕ × ℕ × ℚ × Char) :=
  dmsCoreAt isDirNS cs fun d1 m1 s1 dir1 rest =>
    match rest.dropWhile isSpaceCh with
    | ',' :: r2 =>
      dmsCoreAt isDirEW (r2.dropWhile isSpaceCh) fun d2 m2 s2 dir2 _ =>
        some (d1, m1, s1, dir1, d2, m2, s2, dir2)
    | _ => none

/-- `re.search` of the DMS pair pattern
`(\d+)°\s*(\d+)['′]?\s*(\d+(?:\.\d+)?)["″]?\s*([NS])\s*,\s*(\d+)°\s*(\d+)['′]?\s*(\d+(?:\.\d+)?)["″]?\s*([EW])`. -/
def searchDmsPair : List Char → Option (ℕ × ℕ × ℚ × Char × ℕ × ℕ × ℚ × Char)
  | [] => none
  | c :: rest =>
    match matchDmsPairAt (c :: rest) with
    | some r => some r
    | none => searchDmsPair rest

/-! ## Errors, joins, generic association lists -/

inductive PyErr where
  | zeroDiv
  | typeErr
deriving Repr, DecidableEq

def sepJoin (sep : String) : List String → String
  | [] => ""
  | [s] => s
  | s :: rest => s ++ sep ++ sepJoin sep rest

/-- Python `sep.join(vs)`: raises `TypeError` unless every element is a str. -/
def joinVals (sep : String) (vs : List Value) : Except PyErr String :=
  if vs.all (fun v => match v with | .pyStr _ => true | _ => false) then
    .ok (sepJoin sep (vs.map fun v => match v with | .pyStr s => s | _ => ""))
  else .error .typeErr

def lookAL {α : Type} : List (String × α) → String → Option α
  | [], _ => none
  | (k', v) :: rest, k => if k' = k then some v else lookAL rest k

def setAL {α : Type} : List (String × α) → String → α → List (String × α)
  | [], k, v => [(k, v)]
  | (k', v') :: rest, k, v =>
    if k' = k then (k, v) :: rest else (k', v') :: setAL rest k v

/-! ## GPSParser: coordinate conversions (src/core/gps_parser.py) -/

/-- `GPSParser.decimal_to_dms` (lines 693-720).  `int()` truncation equals
`⌊·⌋` on the non-negative absolute value taken by the source. -/
def decimalToDms (coord : ℚ) (coordType : String) : String :=
  let direction :=
    if lowerStr coordType = "lat" then (if coord ≥ 0 then "N" else "S")
    else (if coord ≥ 0 then "E" else "W")
  let c := |coord|
  let degrees : ℤ := ⌊c⌋
  let minutesFloat := (c - degrees) * 60
  let minutes : ℤ := ⌊minutesFloat⌋
  let seconds := (minutesFloat - minutes) * 60
  intStr degrees ++ "° " ++ intStr minutes ++ "' " ++ fmtFixed 2 seconds ++ "\" " ++ direction

/-- `GPSParser.dms_to_decimal` (lines 722-769): full DMS pattern, then the
simple degree pattern, then a plain float parse; `none` models the final
`ValueError`. -/
def dmsToDecimal (s : String) : Option ℚ :=
  match searchDms s.data with
  | some (d, m, sec, dir) =>
    let dec : ℚ := d + m / 60 + sec / 3600
    some (if dir = 'S' ∨ dir = 'W' then -dec else dec)
  | none =>
    match searchSimpleDeg s.data with
    | some (deg, dir) => some (if dir = 'S' ∨ dir = 'W' then -deg else deg)
    | none => parseFloatChars s.data

/-- `deg + min/60 + sec/3600`, negated for a south/west direction (lines
677-683 of `_extract_coordinates_from_string`). -/
def dmsSigned (deg mins : ℕ) (sec : ℚ) (neg : Bool) : ℚ :=
  let v : ℚ := deg + mins / 60 + sec / 3600
  if neg then -v else v

/-- The DMS-pair stage of `_extract_coordinates_from_string` (lines 662-689),
guarded by the −90..90/−180..180 range check. -/
def dmsPairStage (text : String) : Option (ℚ × ℚ) :=
  match searchDmsPair text.data with
  | some (latD, latM, latS, latDir, lonD, lonM, lonS, lonDir) =>
    let lat := dmsSigned latD latM latS (latDir == 'S')
    let lon := dmsSigned lonD lonM lonS (lonDir == 'W')
    if -90 ≤ lat ∧ lat ≤ 90 ∧ -180 ≤ lon ∧ lon ≤ 180 then some (lat, lon) else none
  | none => none

/-- `GPSParser._extract_coordinates_from_string` (lines 639-691): decimal
pair first, DMS pair second, each guarded by the −90..90/−180..180 range
check; a pair failing the check falls through / is dropped. -/
def extractCoordinatesFromString (text : String) : Option (ℚ × ℚ) :=
  match searchDecPair text.data with
  | some (lat, lon) =>
    if -90 ≤ lat ∧ lat ≤ 90 ∧ -180 ≤ lon ∧ lon ≤ 180 then some (lat, lon)
    else dmsPairStage text
  | none => dmsPairStage text

/-- The DMS rendering `f"{d}° {m}' {s:.2f}\" {dir}"` produced by
`decimal_to_dms`, with the seconds given in hundredths (`s2 < 6000`). -/
def renderDMS (d m s2 : ℕ) (dirC : Char) : String :=
  natStr d ++ "° " ++ natStr m ++ "' " ++ fmtFixed 2 ((s2 : ℚ) / 100) ++ "\" "
    ++ String.mk [dirC]

/-- The decimal value `d + m/60 + s/3600` of a DMS triple with seconds in
hundredths. -/
def dmsVal (d m s2 : ℕ) : ℚ := (d : ℚ) + (m : ℚ) / 60 + ((s2 : ℚ) / 100) / 3600

/-- The head of the list, if any, is not a decimal digit. -/
def headNonDigit : List Char → Bool
  | [] => true
  | c :: _ => !c.isDigit

/-! ## GPSParser: detection tiers -/

def exifGpsHasKeys : List String :=
  ["GPS:GPSLatitude", "GPS:GPSLongitude",
   "GPSLatitude", "GPSLongitude",
   "GPS:Latitude", "GPS:Longitude",
   "GPS GPSLatitude", "GPS GPSLongitude",
   "EXIF:GPSLatitude", "EXIF:GPSLongitude"]

def xmpGpsHasKeys : List String :=
  ["XMP:GPSLatitude", "XMP:GPSLongitude",
   "XMP:Latitude", "XMP:Longitude",
   "XMP-exif:GPSLatitude", "XMP-exif:GPSLongitude"]

def iptcLocationHasKeys : List String :=
  ["IPTC:City", "IPTC:Province-State", "IPTC:Country",
   "IPTC:Sub-location", "IPTC:LocationCode", "IPTC:LocationName"]

/-- `GPSParser._has_exif_gps_tags`. -/
def hasExifGpsTags (m : Meta) : Bool := exifGpsHasKeys.any (memKey m)

/-- `GPSParser._has_xmp_gps_tags`. -/
def hasXmpGpsTags (m : Meta) : Bool := xmpGpsHasKeys.any (memKey m)

/-- `GPSParser._has_iptc_location_tags`. -/
def hasIptcLocationTags (m : Meta) : Bool := iptcLocationHasKeys.any (memKey m)

/-- The `[degrees, minutes, seconds]` / `(d, m, s)` conversion shared by the
sequence branches of `_extract_gps_coordinate`. -/
def dmsTripleVal (vs : List Value) : Option ℚ :=
  match vs with
  | [d, m, s] =>
    match floatOfValue d, floatOfValue m, floatOfValue s with
    | some dq, some mq, some sq => some (dq + mq / 60 + sq / 3600)
    | _, _, _ => none
  | _ => none

/-- `GPSParser._extract_gps_coordinate` (lines 236-296): first key whose
value converts through one of the five accepted shapes wins; a present key
whose value fails to convert falls through to the next key. -/
def extractGpsCoordinate (m : Meta) : List String → Option ℚ
  | [] => none
  | key :: rest =>
    match getA m key with
    | none => extractGpsCoordinate m rest
    | some v =>
      match v with
      | .pyBool b => some (if b then 1 else 0)
      | .pyInt n => some n
      | .pyFloat q => some q
      | .pyStr s =>
        match parseFloatChars s.data with
        | some q => some q
        | none =>
          match dmsToDecimal s with
          | some q => some q
          | none => extractGpsCoordinate m rest
      | .pyList vs =>
        if vs.length = 3 then
          match dmsTripleVal vs with
          | some q => some q
          | none => extractGpsCoordinate m rest
        else extractGpsCoordinate m rest
      | .pyTuple vs =>
        if vs.length = 3 then
          match dmsTripleVal vs with
          | some q => some q
          | none => extractGpsCoordinate m rest
        else extractGpsCoordinate m rest
      | .pyDict kvs =>
        if (lookAL kvs "degrees").isSome && (lookAL kvs "minutes").isSome
            && (lookAL kvs "seconds").isSome then
          match (lookAL kvs "degrees").bind floatOfValue,
              (lookAL kvs "minutes").bind floatOfValue,
              (lookAL kvs "seconds").bind floatOfValue with
          | some dq, some mq, some sq => some (dq + mq / 60 + sq / 3600)
          | _, _, _ => extractGpsCoordinate m rest
        else extractGpsCoordinate m rest
      | _ => extractGpsCoordinate m rest

/-- `GPSParser._extract_gps_ref` (lines 298-326). -/
def extractGpsRef (m : Meta) (keys : List String) (dflt : String) : String :=
  match keys with
  | [] => dflt
  | key :: rest =>
    match getA m key with
    | none => extractGpsRef m rest dflt
    | some v =>
      match v with
      | .pyStr s =>
        if s = "N" ∨ s = "S" ∨ s = "E" ∨ s = "W" then s else extractGpsRef m rest dflt
      | .pyBytes bs =>
        if bs.isEmpty then extractGpsRef m rest dflt
        else
          match decodeAscii bs with
          | some s0 =>
            let s := strStrip s0
            if s = "N" ∨ s = "S" ∨ s = "E" ∨ s = "W" then s else extractGpsRef m rest dflt
          | none => extractGpsRef m rest dflt
      | _ => extractGpsRef m rest dflt

/-- Python `v in [0, '0', b'0']` (the altitude-reference test; `False == 0`
and `0.0 == 0` in Python). -/
def valIsRef0 : Value → Bool
  | .pyInt n => n == 0
  | .pyBool b => !b
  | .pyFloat q => q == 0
  | .pyStr s => s == "0"
  | .pyBytes bs => bs == [48]
  | _ => false

/-- Python `v in [1, '1', b'1']`. -/
def valIsRef1 : Value → Bool
  | .pyInt n => n == 1
  | .pyBool b => b
  | .pyFloat q => q == 1
  | .pyStr s => s == "1"
  | .pyBytes bs => bs == [49]
  | _ => false

def gpsAltitudeKeys : List String :=
  ["GPS:GPSAltitude", "GPSAltitude", "GPS GPSAltitude", "EXIF:GPSAltitude"]

def gpsAltitudeRefKeys : List String :=
  ["GPS:GPSAltitudeRef", "GPSAltitudeRef", "GPS GPSAltitudeRef", "EXIF:GPSAltitudeRef"]

/-- The altitude-value scan of `_extract_gps_altitude` (lines 349-370). -/
def extractAltValue (m : Meta) : List String → Option ℚ
  | [] => none
  | key :: rest =>
    match getA m key with
    | none => extractAltValue m rest
    | some v =>
      match v with
      | .pyBool b => some (if b then 1 else 0)
      | .pyInt n => some n
      | .pyFloat q => some q
      | .pyStr s =>
        match parseFloatChars (stripWs (s.data.filter (· ≠ 'm'))) with
        | some q => some q
        | none => extractAltValue m rest
      | .pyFrac n d =>
        if d = 0 then extractAltValue m rest else some ((n : ℚ) / d)
      | _ => extractAltValue m rest

/-- The altitude-reference scan of `_extract_gps_altitude` (lines 376-386):
first key holding a recognized `0`/`1` value wins, default `0`. -/
def extractAltRef (m : Meta) : List String → ℕ
  | [] => 0
  | key :: rest =>
    match getA m key with
    | none => extractAltRef m rest
    | some v =>
      if valIsRef0 v then 0
      else if valIsRef1 v then 1
      else extractAltRef m rest

/-- `GPSParser._extract_gps_altitude` (lines 328-389). -/
def extractGpsAltitude (m : Meta) : Option ℚ :=
  match extractAltValue m gpsAltitudeKeys with
  | none => none
  | some alt => some (if extractAltRef m gpsAltitudeRefKeys = 0 then alt else -alt)

/-- `f"{n:02d}"`. -/
def fmt02d (n : ℤ) : String :=
  if n < 0 then "-" ++ natStr (-n).toNat else String.mk (padZeros 2 (natDigits n.toNat))

def gpsTimeStampKeys : List String :=
  ["GPS:GPSTimeStamp", "GPSTimeStamp", "GPS GPSTimeStamp", "EXIF:GPSTimeStamp"]

def gpsDateStampKeys : List String :=
  ["GPS:GPSDateStamp", "GPSDateStamp", "GPS GPSDateStamp", "EXIF:GPSDateStamp"]

def gpsImgDirectionKeys : List String :=
  ["GPS:GPSImgDirection", "GPSImgDirection", "GPS GPSImgDirection", "EXIF:GPSImgDirection"]

def gpsSpeedKeys : List String :=
  ["GPS:GPSSpeed", "GPSSpeed", "GPS GPSSpeed", "EXIF:GPSSpeed"]

def gpsSpeedRefKeys : List String :=
  ["GPS:GPSSpeedRef", "GPSSpeedRef", "GPS GPSSpeedRef", "EXIF:GPSSpeedRef"]

/-- The GPS timestamp scan of `_extract_additional_gps_info` (lines 404-421). -/
def extractGpsTimeStamp (m : Meta) : List String → Option Value
  | [] => none
  | key :: rest =>
    match getA m key with
    | none => extractGpsTimeStamp m rest
    | some v =>
      match v with
      | .pyStr s => some (.pyStr s)
      | .pyList vs =>
        match vs with
        | [v0, v1, v2] =>
          let secs : Option ℤ :=
            match v2 with
            | .pyInt n => some n
            | .pyBool b => some (if b then 1 else 0)
            | _ => (floatOfValue v2).map pyTrunc
          match intOfValue v0, intOfValue v1, secs with
          | some h, some mi, some se =>
            some (.pyStr (fmt02d h ++ ":" ++ fmt02d mi ++ ":" ++ fmt02d se))
          | _, _, _ => extractGpsTimeStamp m rest
        | _ => extractGpsTimeStamp m rest
      | _ => extractGpsTimeStamp m rest

/-- The numeric scans for GPSImgDirection / GPSSpeed (lines 441-461, 468-488):
number, float-parsable string, or `Fraction`. -/
def extractGpsNumeric (m : Meta) : List String → Option ℚ
  | [] => none
  | key :: rest =>
    match getA m key with
    | none => extractGpsNumeric m rest
    | some v =>
      match v with
      | .pyBool b => some (if b then 1 else 0)
      | .pyInt n => some n
      | .pyFloat q => some q
      | .pyStr s =>
        match parseFloatChars s.data with
        | some q => some q
        | none => extractGpsNumeric m rest
      | .pyFrac n d =>
        if d = 0 then extractGpsNumeric m rest else some ((n : ℚ) / d)
      | _ => extractGpsNumeric m rest

/-- The GPSSpeedRef scan (lines 495-512). -/
def extractGpsSpeedRef (m : Meta) : List String → Option String
  | [] => none
  | key :: rest =>
    match getA m key with
    | none => extractGpsSpeedRef m rest
    | some v =>
      let decodeRef (s : String) : Option String :=
        if s = "K" then some "km/h"
        else if s = "M" then some "mph"
        else if s = "N" then some "knots"
        else none
      match v with
      | .pyStr s =>
        match decodeRef s with
        | some r => some r
        | none => extractGpsSpeedRef m rest
      | .pyBytes bs =>
        if bs.isEmpty then extractGpsSpeedRef m rest
        else
          match decodeAscii bs with
          | some s0 =>
            match decodeRef (strStrip s0) with
            | some r => some r
            | none => extractGpsSpeedRef m rest
          | none => extractGpsSpeedRef m rest
      | _ => extractGpsSpeedRef m rest

/-- `GPSParser._extract_additional_gps_info` (lines 391-512), updating the
tier-1 result in place. -/
def extractAdditionalGpsInfo (m : Meta) (g : Meta) : Meta :=
  let g :=
    match extractGpsTimeStamp m gpsTimeStampKeys with
    | some v => setA g "GPSTimeStamp" v
    | none => g
  let g :=
    match firstSome gpsDateStampKeys (fun k =>
      match getA m k with
      | some (.pyStr s) => some s
      | _ => none) with
    | some s => setA g "GPSDateStamp" (.pyStr s)
    | none => g
  let g :=
    match extractGpsNumeric m gpsImgDirectionKeys with
    | some q => setA g "GPSDirection" (.pyFloat q)
    | none => g
  let g :=
    match extractGpsNumeric m gpsSpeedKeys with
    | some q => setA g "GPSSpeed" (.pyFloat q)
    | none => g
  match extractGpsSpeedRef m gpsSpeedRefKeys with
  | some s => setA g "GPSSpeedRef" (.pyStr s)
  | none => g

def exifLatKeys : List String :=
  ["GPS:GPSLatitude", "GPSLatitude", "GPS GPSLatitude", "EXIF:GPSLatitude"]

def exifLonKeys : List String :=
  ["GPS:GPSLongitude", "GPSLongitude", "GPS GPSLongitude", "EXIF:GPSLongitude"]

def exifLatRefKeys : List String :=
  ["GPS:GPSLatitudeRef", "GPSLatitudeRef", "GPS GPSLatitudeRef", "EXIF:GPSLatitudeRef"]

def exifLonRefKeys : List String :=
  ["GPS:GPSLongitudeRef", "GPSLongitudeRef", "GPS GPSLongitudeRef", "EXIF:GPSLongitudeRef"]

/-- `GPSParser._parse_exif_gps` (lines 186-234). -/
def parseExifGps (m : Meta) : Meta :=
  let lat := extractGpsCoordinate m exifLatKeys
  let lon := extractGpsCoordinate m exifLonKeys
  let latRef := extractGpsRef m exifLatRefKeys "N"
  let lonRef := extractGpsRef m exifLonRefKeys "E"
  let g : Meta := []
  let g :=
    match lat with
    | some la => setA g "Latitude" (.pyFloat (if latRef = "N" then la else -la))
    | none => g
  let g :=
    match lon with
    | some lo => setA g "Longitude" (.pyFloat (if lonRef = "E" then lo else -lo))
    | none => g
  let g :=
    match extractGpsAltitude m with
    | some alt => setA g "Altitude" (.pyFloat alt)
    | none => g
  extractAdditionalGpsInfo m g

def xmpLatKeys : List String := ["XMP:GPSLatitude", "XMP:Latitude", "XMP-exif:GPSLatitude"]

def xmpLonKeys : List String := ["XMP:GPSLongitude", "XMP:Longitude", "XMP-exif:GPSLongitude"]

def xmpAltKeys : List String := ["XMP:GPSAltitude", "XMP:Altitude", "XMP-exif:GPSAltitude"]

/-- The XMP altitude scan of `_parse_xmp_gps` (lines 543-555). -/
def extractXmpAltitude (m : Meta) : List String → Option ℚ
  | [] => none
  | key :: rest =>
    match getA m key with
    | none => extractXmpAltitude m rest
    | some v =>
      match v with
      | .pyBool b => some (if b then 1 else 0)
      | .pyInt n => some n
      | .pyFloat q => some q
      | .pyStr s =>
        match parseFloatChars (stripWs (s.data.filter (· ≠ 'm'))) with
        | some q => some q
        | none => extractXmpAltitude m rest
      | _ => extractXmpAltitude m rest

/-- `GPSParser._parse_xmp_gps` (lines 514-557). -/
def parseXmpGps (m : Meta) : Meta :=
  let lat := extractGpsCoordinate m xmpLatKeys
  let lon := extractGpsCoordinate m xmpLonKeys
  let g : Meta := []
  let g :=
    match lat with
    | some la => setA g "Latitude" (.pyFloat la)
    | none => g
  let g :=
    match lon with
    | some lo => setA g "Longitude" (.pyFloat lo)
    | none => g
  match extractXmpAltitude m xmpAltKeys with
  | some alt => setA g "Altitude" (.pyFloat alt)
  | none => g

/-- `GPSParser._parse_iptc_location` (lines 559-604).  `', '.join` on the
collected raw values raises `TypeError` if any of them is not a string;
that exception is swallowed by `parse_gps_info`'s outer handler. -/
def parseIptcLocation (m : Meta) : Except PyErr Meta :=
  let subloc := firstSome ["IPTC:Sub-location", "IPTC:Sublocation"] (getTruthy m)
  let city := getTruthy m "IPTC:City"
  let state := firstSome ["IPTC:Province-State", "IPTC:State", "IPTC:Province"] (getTruthy m)
  let country := getTruthy m "IPTC:Country"
  let comps := [subloc, city, state, country].filterMap id
  let info : Meta := []
  let info := match subloc with | some v => setA info "Sublocation" v | none => info
  let info := match city with | some v => setA info "City" v | none => info
  let info := match state with | some v => setA info "State" v | none => info
  let info := match country with | some v => setA info "Country" v | none => info
  if comps.isEmpty then .ok info
  else
    match joinVals ", " comps with
    | .ok s => .ok (setA info "LocationName" (.pyStr s))
    | .error e => .error e

/-- Key test of the tier-4 generic scan (line 628). -/
def genericGpsKey (k : String) : Bool :=
  strHas (lowerStr k) "gps" || strHas (lowerStr k) "location" || strHas (lowerStr k) "coordinates"

/-- The loop of `GPSParser._parse_generic_gps` (lines 619-635). -/
def genericGpsLoop : List (String × Value) → Meta → Meta
  | [], acc => acc
  | (k, v) :: rest, acc =>
    match v with
    | .pyStr s =>
      if memKey acc "Latitude" && memKey acc "Longitude" then acc
      else if genericGpsKey k then
        match extractCoordinatesFromString s with
        | some (la, lo) => setA (setA acc "Latitude" (.pyFloat la)) "Longitude" (.pyFloat lo)
        | none => genericGpsLoop rest acc
      else genericGpsLoop rest acc
    | _ => genericGpsLoop rest acc

/-- `GPSParser._parse_generic_gps` (lines 606-637). -/
def parseGenericGps (m : Meta) : Meta := genericGpsLoop m []

/-! ## GPSParser: reverse geocoding and enrichment -/

/-- The external geocoding collaborators (§6 of the spec): `online` models
geopy/Nominatim (`none` = unavailable or failed to initialize), `offline`
models `reverse_geocoder`.  A call returns `.error ()` when the collaborator
raises, `.ok` with its payload otherwise. -/
structure GeoEnv where
  online : Option (ℚ → ℚ → Except Unit (Option (List (String × String))))
  offline : Option (ℚ → ℚ → Except Unit (List (List (String × String))))

/-- The geocoding cache `self.geocoding_cache`. -/
abbrev GeoState := List (String × Meta)

/-- The cache key `f"{latitude:.6f},{longitude:.6f}"`. -/
def geoKey (la lo : ℚ) : String := fmtFixed 6 la ++ "," ++ fmtFixed 6 lo

/-- First of `keys` present in `addr` with a non-empty value. -/
def addrPart (addr : List (String × String)) : List String → Option String
  | [] => none
  | k :: rest =>
    match lookAL addr k with
    | some s => if s ≠ "" then some s else addrPart addr rest
    | none => addrPart addr rest

/-- Build the location info from an online address dict (lines 795-828). -/
def onlineLocInfo (addr : List (String × String)) : Meta :=
  let city := addrPart addr ["city", "town", "village", "hamlet"]
  let county := addrPart addr ["county", "district", "state_district"]
  let state := addrPart addr ["state", "province"]
  let country := addrPart addr ["country"]
  let comps := [city, county, state, country].filterMap id
  let info : Meta := []
  let info := match city with | some s => setA info "City" (.pyStr s) | none => info
  let info := match county with | some s => setA info "County" (.pyStr s) | none => info
  let info := match state with | some s => setA info "State" (.pyStr s) | none => info
  let info := match country with | some s => setA info "Country" (.pyStr s) | none => info
  if comps.isEmpty then info else setA info "LocationName" (.pyStr (sepJoin ", " comps))

/-- Build the location info from an offline record (lines 843-860). -/
def offlineLocInfo (rec : List (String × String)) : Meta :=
  let name := match lookAL rec "name" with | some s => if s ≠ "" then some s else none | none => none
  let admin1 := match lookAL rec "admin1" with | some s => if s ≠ "" then some s else none | none => none
  let cc := match lookAL rec "cc" with | some s => if s ≠ "" then some s else none | none => none
  let comps := [name, admin1, cc].filterMap id
  let info : Meta := []
  let info := match name with | some s => setA info "City" (.pyStr s) | none => info
  let info := match admin1 with | some s => setA info "State" (.pyStr s) | none => info
  let info := match cc with | some s => setA info "CountryCode" (.pyStr s) | none => info
  if comps.isEmpty then info else setA info "LocationName" (.pyStr (sepJoin ", " comps))

/-- `GPSParser.reverse_geocode` (lines 771-869): cache hit first; then the
online collaborator (a raise or a missing location falls through); then the
offline collaborator; only a collaborator success is cached; every failure
path returns the empty dict. -/
def reverseGeocode (env : GeoEnv) (st : GeoState) (la lo : ℚ) : Meta × GeoState :=
  let ck := geoKey la lo
  match lookAL st ck with
  | some r => (r, st)
  | none =>
    let onlineRes : Option Meta :=
      match env.online with
      | some f =>
        match f la lo with
        | .ok (some addr) => some (onlineLocInfo addr)
        | _ => none
      | none => none
    match onlineRes with
    | some info => (info, setAL st ck info)
    | none =>
      match env.offline with
      | some f =>
        match f la lo with
        | .ok (rec :: _) => (offlineLocInfo rec, setAL st ck (offlineLocInfo rec))
        | _ => ([], st)
      | none => ([], st)

/-- The post-detection enrichment of `parse_gps_info` (lines 97-120): only
when both coordinates are present and numeric.  `fs` renders a Python float
as `str()` does. -/
def enrichGps (fs : ℚ → String) (env : GeoEnv) (st : GeoState) (g : Meta) : Meta × GeoState :=
  match getA g "Latitude", getA g "Longitude" with
  | some latV, some lonV =>
    if isNumericVal latV && isNumericVal lonV then
      let la := numQ latV
      let lo := numQ lonV
      let locStr := pyNumStr fs latV ++ ", " ++ pyNumStr fs lonV
      let g := setA g "Location" (.pyStr locStr)
      let g := setA g "Coordinates" (.pyStr locStr)
      let g := setA g "LatitudeDMS" (.pyStr (decimalToDms la "lat"))
      let g := setA g "LongitudeDMS" (.pyStr (decimalToDms lo "lon"))
      let g := setA g "GoogleMapsURL"
        (.pyStr ("https://www.google.com/maps/search/?api=1&query="
          ++ pyNumStr fs latV ++ "," ++ pyNumStr fs lonV))
      let (loc, st') := reverseGeocode env st la lo
      (if loc.isEmpty then g else updA g loc, st')
    else (g, st)
  | _, _ => (g, st)

/-- The tier-dispatch `elif` chain of `parse_gps_info` (lines 77-90). -/
def detectGps (m : Meta) : Except PyErr Meta :=
  if hasExifGpsTags m then .ok (parseExifGps m)
  else if hasXmpGpsTags m then .ok (parseXmpGps m)
  else if hasIptcLocationTags m then parseIptcLocation m
  else .ok (parseGenericGps m)

/-- `GPSParser.parse_gps_info` (lines 66-126): the four detection tiers in
an if/elif chain, then enrichment; the outer `try/except` turns any escaped
exception (the IPTC join) into the empty result. -/
def parseGpsInfo (fs : ℚ → String) (env : GeoEnv) (st : GeoState) (m : Meta) :
    Meta × GeoState :=
  match detectGps m with
  | .error _ => ([], st)
  | .ok g => enrichGps fs env st g

/-- Restriction of a record to a fixed key set (for the non-interference
reading of tier priority). -/
def restrictP (m : Meta) (keys : List String) : Meta :=
  m.filter fun kv => decide (kv.1 ∈ keys)

/-- Every key the tier-1 EXIF parser ever reads. -/
def tier1Keys : List String :=
  exifLatKeys ++ exifLonKeys ++ exifLatRefKeys ++ exifLonRefKeys ++
  gpsAltitudeKeys ++ gpsAltitudeRefKeys ++ gpsTimeStampKeys ++ gpsDateStampKeys ++
  gpsImgDirectionKeys ++ gpsSpeedKeys ++ gpsSpeedRefKeys

/-- Every key the tier-2 XMP parser ever reads. -/
def tier2Keys : List String := xmpLatKeys ++ xmpLonKeys ++ xmpAltKeys

/-- Every key the tier-3 IPTC parser ever reads. -/
def tier3Keys : List String :=
  ["IPTC:Sub-location", "IPTC:Sublocation", "IPTC:City",
   "IPTC:Province-State", "IPTC:State", "IPTC:Province", "IPTC:Country"]

/-! ## DeviceIdentifier (src/core/device_identifier.py) -/

/-- Truthiness of an `Optional[str]` (`if make:`). -/
def optTruthy (s : Option String) : Bool :=
  match s with
  | some t => t ≠ ""
  | none => false

/-- `DeviceIdentifier._clean_device_string` (lines 281-306): drop null bytes,
strip, drop ASCII control characters (tab kept), collapse whitespace runs. -/
def cleanDeviceString (text : String) : String :=
  let t1 := text.data.filter (· ≠ '\x00')
  let t2 := stripWs t1
  let t3 := t2.filter fun c => c.toNat ≥ 32 || c.toNat == 9
  String.mk (collapseWs t3)

def makeKeys : List String :=
  ["Make", "make", "EXIF:Make", "IFD0:Make", "Image Make",
   "Manufacturer", "CameraManufacturer", "DeviceManufacturer",
   "EXIF:Manufacturer", "XMP:Manufacturer", "IPTC:Manufacturer"]

def modelKeys : List String :=
  ["Model", "model", "EXIF:Model", "IFD0:Model", "Image Model",
   "CameraModel", "DeviceModel", "EXIF:CameraModel",
   "XMP:Model", "IPTC:Model"]

def softwareKeys : List String :=
  ["Software", "software", "EXIF:Software", "IFD0:Software", "Image Software",
   "ProcessingSoftware", "CreatorTool", "XMP:CreatorTool", "XMP:Software",
   "IPTC:ProcessingSoftware"]

/-- `DeviceIdentifier._extract_make_model` (lines 207-255). -/
def extractMakeModel (fs : ℚ → String) (m : Meta) : Option String × Option String :=
  let mk0 := (firstAlias m makeKeys).map fun v => strStrip (pyStrOfVal fs v)
  let md0 := (firstAlias m modelKeys).map fun v => strStrip (pyStrOfVal fs v)
  let mk :=
    match mk0 with
    | some s => if s ≠ "" then some (cleanDeviceString s) else some s
    | none => none
  let md :=
    match md0 with
    | none => none
    | some s0 =>
      if s0 = "" then some s0
      else
        let s := cleanDeviceString s0
        match mk with
        | some mkS =>
          if mkS ≠ "" ∧ strStarts (lowerStr s) (lowerStr mkS) then
            some (strStrip (String.mk (s.data.drop mkS.data.length)))
          else some s
        | none => some s
  (mk, md)

/-- `DeviceIdentifier._extract_software` (lines 257-279). -/
def extractSoftware (fs : ℚ → String) (m : Meta) : Option String :=
  (firstAlias m softwareKeys).map fun v => cleanDeviceString (strStrip (pyStrOfVal fs v))

def smartphoneManufacturers : List String :=
  ["apple", "iphone", "samsung", "huawei", "xiaomi", "google", "pixel",
   "oneplus", "oppo", "vivo", "motorola", "lg", "htc", "nokia", "asus",
   "lenovo", "zte", "realme", "honor", "poco"]

def tabletIndicators : List String := ["ipad", "tab", "tablet", "pad", "galaxy tab"]

def cameraManufacturers : List String :=
  ["canon", "nikon", "sony", "fuji", "fujifilm", "olympus", "panasonic",
   "pentax", "leica", "hasselblad", "kodak", "sigma", "ricoh"]

def droneManufacturers : List String := ["dji", "parrot", "autel", "skydio", "yuneec"]

def actionCameraIndicators : List String := ["gopro", "hero", "action", "insta360"]

def lensIndicatorKeys : List String := ["Lens", "LensModel", "LensInfo", "LensSerialNumber"]

/-- `DeviceIdentifier._identify_device_type` (lines 308-390). -/
def identifyDeviceType (make model : Option String) (m : Meta) : Option Value :=
  match getA m "DeviceType" with
  | some v => some v
  | none =>
    if !optTruthy make && !optTruthy model then none
    else
      let makeL := if optTruthy make then lowerStr (make.getD "") else ""
      let modelL := if optTruthy model then lowerStr (model.getD "") else ""
      if smartphoneManufacturers.any (strHas makeL) then
        if tabletIndicators.any (strHas modelL) then some (.pyStr "Tablet")
        else some (.pyStr "Smartphone")
      else if cameraManufacturers.any (strHas makeL) then some (.pyStr "Camera")
      else if droneManufacturers.any (strHas makeL) then some (.pyStr "Drone")
      else if actionCameraIndicators.any (fun s => strHas makeL s || strHas modelL s) then
        some (.pyStr "Action Camera")
      else if modelL ≠ "" ∧ (strHas modelL "phone" || strHas modelL "smartphone") then
        some (.pyStr "Smartphone")
      else if modelL ≠ "" ∧ (strHas modelL "camera" || strHas modelL "dslr" || strHas modelL "mirrorless") then
        some (.pyStr "Camera")
      else if modelL ≠ "" ∧ strHas modelL "drone" then some (.pyStr "Drone")
      else if lensIndicatorKeys.any (memKey m) then some (.pyStr "Camera")
      else if (memKey m "FocalLength" || memKey m "FNumber")
          && (memKey m "ISO" && memKey m "ExposureTime") then some (.pyStr "Camera")
      else if optTruthy make || optTruthy model then some (.pyStr "Digital Camera")
      else none

/-! ### Lens information -/

def lensModelKeys : List String :=
  ["LensModel", "Lens", "EXIF:LensModel", "MakerNotes:LensModel",
   "XMP:LensModel", "Lens Model", "Lens Info", "LensInfo"]

def lensMakeKeys : List String :=
  ["LensMake", "EXIF:LensMake", "MakerNotes:LensMake", "XMP:LensMake", "Lens Make"]

def lensSerialKeys : List String :=
  ["LensSerialNumber", "EXIF:LensSerialNumber", "MakerNotes:LensSerialNumber",
   "XMP:LensSerialNumber", "Lens Serial Number"]

def lensSpecKeys : List String :=
  ["LensSpecification", "EXIF:LensSpecification", "MakerNotes:LensSpecification",
   "XMP:LensSpecification", "Lens Specification"]

def lensManufacturerPairs : List (String × String) :=
  [("canon", "Canon"), ("ef-s", "Canon"), ("ef-m", "Canon"), ("ef", "Canon"),
   ("rf", "Canon"), ("nikkor", "Nikon"), ("nikon", "Nikon"), ("sony", "Sony"),
   ("zeiss", "Zeiss"), ("leica", "Leica"), ("sigma", "Sigma"), ("tamron", "Tamron"),
   ("tokina", "Tokina"), ("samyang", "Samyang"), ("rokinon", "Rokinon"),
   ("voigtlander", "Voigtlander"), ("olympus", "Olympus"), ("zuiko", "Olympus"),
   ("panasonic", "Panasonic"), ("lumix", "Panasonic"), ("fuji", "Fujifilm"),
   ("fujinon", "Fujifilm"), ("fujifilm", "Fujifilm"), ("pentax", "Pentax"),
   ("hasselblad", "Hasselblad"), ("schneider", "Schneider"), ("mamiya", "Mamiya"),
   ("meyer", "Meyer-Optik"), ("laowa", "Laowa"), ("venus", "Venus Optics"),
   ("irix", "Irix"), ("ttartisan", "TTArtisan"), ("7artisans", "7Artisans")]

def isWordCh (c : Char) : Bool := c.isAlphanum || c == '_'

/-- Does `pat` occur at the head of `s` with `\b` boundaries on both sides?
(`prev` is the character before the position; every key searched for starts
and ends with a word character, so `\b` reduces to the adjacent character
being absent or a non-word character.) -/
def boundedStart (pat : List Char) (prev : Option Char) (s : List Char) : Bool :=
  (match prev with | none => true | some p => !isWordCh p) && listStarts pat s &&
  (match s.drop pat.length with | [] => true | c :: _ => !isWordCh c)

def hasWordSubAux (pat : List Char) : Option Char → List Char → Bool
  | prev, [] => boundedStart pat prev []
  | prev, c :: rest => boundedStart pat prev (c :: rest) || hasWordSubAux pat (some c) rest

/-- `re.search(r'\b' + key + r'\b', s)` as a Boolean. -/
def hasWordSub (pat s : List Char) : Bool := hasWordSubAux pat none s

/-- `DeviceIdentifier._extract_lens_make_from_model` (lines 495-557). -/
def extractLensMakeFromModel (lensModel : String) : Option String :=
  if lensModel = "" then none
  else
    let lml := lowerStr lensModel
    firstSome lensManufacturerPairs fun p =>
      if strStarts lml p.1 then some p.2
      else if strHas lml p.1 && hasWordSub p.1.data lml.data then some p.2
      else none

/-- The string content of a profile field known to be a string. -/
def getStrA (m : Meta) (k : String) : String :=
  match getA m k with
  | some (.pyStr s) => s
  | _ => ""

/-- Parse the first four floats of a lens-specification sequence. -/
def lensSpecOf (vs : List Value) : Option (ℚ × ℚ × ℚ × ℚ) :=
  match vs with
  | a :: b :: c :: d :: _ =>
    match floatOfValue a, floatOfValue b, floatOfValue c, floatOfValue d with
    | some w, some x, some y, some z => some (w, x, y, z)
    | _, _, _, _ => none
  | _ => none

/-- `DeviceIdentifier._extract_lens_info` (lines 392-493). -/
def extractLensInfo (fs : ℚ → String) (m : Meta) : Meta :=
  let li : Meta := []
  let li :=
    match firstAlias m lensModelKeys with
    | some v => setA li "LensModel" (.pyStr (cleanDeviceString (strStrip (pyStrOfVal fs v))))
    | none => li
  let li :=
    match firstAlias m lensMakeKeys with
    | some v => setA li "LensMake" (.pyStr (cleanDeviceString (strStrip (pyStrOfVal fs v))))
    | none => li
  let li :=
    match firstAlias m lensSerialKeys with
    | some v => setA li "LensSerialNumber" (.pyStr (cleanDeviceString (strStrip (pyStrOfVal fs v))))
    | none => li
  let li :=
    match firstAlias m lensSpecKeys with
    | some v =>
      let seqVals : Option (List Value) :=
        match v with
        | .pyList vs => if vs.length ≥ 4 then some vs else none
        | .pyTuple vs => if vs.length ≥ 4 then some vs else none
        | _ => none
      match seqVals.bind lensSpecOf with
      | some (mnF, mxF, mnA, mxA) =>
        let li := setA li "MinFocalLength" (.pyFloat mnF)
        let li := setA li "MaxFocalLength" (.pyFloat mxF)
        let li := setA li "MinAperture" (.pyFloat mnA)
        let li := setA li "MaxAperture" (.pyFloat mxA)
        let fStr := if mnF = mxF then fs mnF ++ "mm" else fs mnF ++ "-" ++ fs mxF ++ "mm"
        let aStr := if mnA = mxA then "f/" ++ fs mnA else "f/" ++ fs mnA ++ "-" ++ fs mxA
        setA li "LensSpecification" (.pyStr (fStr ++ " " ++ aStr))
      | none => li
    | none => li
  let li :=
    if memKey li "LensModel" && !memKey li "LensMake" then
      match extractLensMakeFromModel (getStrA li "LensModel") with
      | some mk => setA li "LensMake" (.pyStr mk)
      | none => li
    else li
  match getA li "LensMake", getA li "LensModel" with
  | some mk, some md => setA li "Lens" (.pyStr (pyStrOfVal fs mk ++ " " ++ pyStrOfVal fs md))
  | none, some md => setA li "Lens" md
  | _, _ => li

/-! ### Additional device info -/

def addSerialKeys : List String :=
  ["SerialNumber", "CameraSerialNumber", "BodySerialNumber",
   "EXIF:SerialNumber", "MakerNotes:SerialNumber",
   "XMP:SerialNumber", "Camera Serial Number"]

def firmwareKeys : List String :=
  ["FirmwareVersion", "Firmware", "EXIF:FirmwareVersion",
   "MakerNotes:FirmwareVersion", "XMP:FirmwareVersion"]

def ownerKeys : List String :=
  ["OwnerName", "CameraOwnerName", "EXIF:OwnerName",
   "MakerNotes:OwnerName", "XMP:OwnerName", "Owner"]

def modeKeys : List String :=
  ["ExposureMode", "ExposureProgram", "SceneCaptureType",
   "EXIF:ExposureMode", "EXIF:ExposureProgram", "EXIF:SceneCaptureType",
   "MakerNotes:ExposureMode", "XMP:ExposureMode"]

def osKeys : List String :=
  ["OSVersion", "OperatingSystem", "Software", "XMP:OSVersion", "XMP:OperatingSystem"]

def exposureProgramTable : List (ℤ × String) :=
  [(0, "Not Defined"), (1, "Manual"), (2, "Program AE"), (3, "Aperture Priority"),
   (4, "Shutter Priority"), (5, "Creative (Slow Speed)"), (6, "Action (High Speed)"),
   (7, "Portrait"), (8, "Landscape"), (9, "Bulb")]

def sceneTypeTable : List (ℤ × String) :=
  [(0, "Standard"), (1, "Landscape"), (2, "Portrait"), (3, "Night"),
   (4, "Night Portrait"), (5, "Backlight"), (6, "Backlight Portrait"),
   (7, "Macro"), (8, "Sports"), (9, "Action"), (10, "Fireworks"),
   (11, "Children"), (12, "Pets")]

def lookCode : List (ℤ × String) → ℤ → Option String
  | [], _ => none
  | (k, s) :: rest, n => if k = n then some s else lookCode rest n

/-- `str(v).isdigit()` for the code guards. -/
def digitsOnly (s : String) : Bool := s ≠ "" && s.data.all Char.isDigit

def isIntOrStrVal : Value → Bool
  | .pyInt _ => true
  | .pyBool _ => true
  | .pyStr _ => true
  | _ => false

/-- Greedy continuation of the version pattern `(\d+(?:\.\d+)*)` after the
leading digit run. -/
def versionMore : List Char → List Char
  | [] => []
  | c :: rest =>
    if c.isDigit then c :: versionMore rest
    else
      match c, rest with
      | '.', d :: rest2 => if d.isDigit then '.' :: d :: versionMore rest2 else []
      | _, _ => []

/-- `re.search(r'(\d+(?:\.\d+)*)', s)`: leftmost digit run with dotted
continuations (greedy; nothing follows the group in the pattern). -/
def searchVersionNum : List Char → Option String
  | [] => none
  | c :: rest =>
    if c.isDigit then
      some (String.mk ((c :: rest).takeWhile Char.isDigit
        ++ versionMore ((c :: rest).dropWhile Char.isDigit)))
    else searchVersionNum rest

/-- The shooting-mode scan inside `_extract_additional_device_info`
(lines 611-660): first present non-`None` key wins. -/
def shootModeScan (fs : ℚ → String) (m : Meta) : List String → Option String
  | [] => none
  | key :: rest =>
    match getA m key with
    | none => shootModeScan fs m rest
    | some .pyNone => shootModeScan fs m rest
    | some v =>
      let mode := v
      let mode :=
        if strEnds key "ExposureProgram" && isIntOrStrVal mode && digitsOnly (pyStrOfVal fs mode) then
          let n := (intOfValue mode).getD 0
          Value.pyStr ((lookCode exposureProgramTable n).getD ("Unknown (" ++ intStr n ++ ")"))
        else mode
      let mode :=
        if strEnds key "SceneCaptureType" && isIntOrStrVal mode && digitsOnly (pyStrOfVal fs mode) then
          let n := (intOfValue mode).getD 0
          Value.pyStr ((lookCode sceneTypeTable n).getD ("Unknown (" ++ intStr n ++ ")"))
        else mode
      some (pyStrOfVal fs mode)

/-- The OS scan inside `_extract_additional_device_info` (lines 664-690). -/
def osScan (fs : ℚ → String) (m : Meta) : List String → List (String × Value)
  | [] => []
  | key :: rest =>
    match getTruthy m key with
    | none => osScan fs m rest
    | some v =>
      let osV := strStrip (pyStrOfVal fs v)
      if strHas osV "iOS" || strHas osV "iPhone OS" then
        [("OperatingSystem", Value.pyStr "iOS")]
          ++ (match searchVersionNum osV.data with
              | some ver => [("OSVersion", Value.pyStr ver)]
              | none => [])
      else if strHas osV "Android" then
        [("OperatingSystem", Value.pyStr "Android")]
          ++ (match searchVersionNum osV.data with
              | some ver => [("OSVersion", Value.pyStr ver)]
              | none => [])
      else [("OSVersion", Value.pyStr (cleanDeviceString osV))]

/-- Python `device_type == s` / `device_type in [...]` for the profile's
device type. -/
def dtIs (dt : Option Value) (s : String) : Bool :=
  match dt with
  | some v => valEqStr v s
  | none => false

/-- `DeviceIdentifier._extract_additional_device_info` (lines 559-692). -/
def extractAdditionalDeviceInfo (fs : ℚ → String) (m : Meta) (dt : Option Value) : Meta :=
  let ai : Meta := []
  let ai :=
    match firstAlias m addSerialKeys with
    | some v => setA ai "DeviceSerialNumber" (.pyStr (cleanDeviceString (strStrip (pyStrOfVal fs v))))
    | none => ai
  let ai :=
    match firstAlias m firmwareKeys with
    | some v => setA ai "FirmwareVersion" (.pyStr (cleanDeviceString (strStrip (pyStrOfVal fs v))))
    | none => ai
  let ai :=
    match firstAlias m ownerKeys with
    | some v => setA ai "OwnerName" (.pyStr (cleanDeviceString (strStrip (pyStrOfVal fs v))))
    | none => ai
  let ai :=
    if dtIs dt "Camera" || dtIs dt "Digital Camera" || dtIs dt "Action Camera" then
      match shootModeScan fs m modeKeys with
      | some s => setA ai "ShootingMode" (.pyStr s)
      | none => ai
    else ai
  if dtIs dt "Smartphone" || dtIs dt "Tablet" then
    (osScan fs m osKeys).foldl (fun acc kv => setA acc kv.1 kv.2) ai
  else ai

/-! ### Database lookup and fuzzy similarity -/

/-- The device database: category → (device id → entry). -/
abbrev DeviceDb := List (String × List (String × Meta))

def levDistAux : ℕ → List Char → List Char → ℕ
  | 0, xs, ys => max xs.length ys.length
  | _, [], ys => ys.length
  | _, xs, [] => xs.length
  | fuel + 1, x :: xs, y :: ys =>
    if x = y then levDistAux fuel xs ys
    else 1 + min (levDistAux fuel xs (y :: ys)) (min (levDistAux fuel (x :: xs) ys) (levDistAux fuel xs ys))

/-- `Levenshtein.distance` (the fuel is only a structural-termination device;
it is large enough for every call). -/
def levDist (xs ys : List Char) : ℕ := levDistAux (xs.length + ys.length) xs ys

def countEqZip : List Char → List Char → ℕ
  | x :: xs, y :: ys => (if x = y then 1 else 0) + countEqZip xs ys
  | _, _ => 0

/-- `DeviceIdentifier._string_similarity` (lines 813-850); `lev` selects the
Levenshtein strategy (library available) or the character-match fallback. -/
def stringSimilarity (lev : Bool) (s1 s2 : String) : ℚ :=
  if s1 = "" || s2 = "" then 0
  else
    let t1 := lowerStr s1
    let t2 := lowerStr s2
    if strHas t2 t1 || strHas t1 t2 then 9 / 10
    else
      let mx := max t1.length t2.length
      if lev then
        if mx = 0 then 1 else 1 - (levDist t1.data t2.data : ℚ) / mx
      else
        if mx = 0 then 1 else (countEqZip t1.data t2.data : ℚ) / mx

def dbFieldMapping : List (String × String) :=
  [("make", "Manufacturer"), ("model", "FullModel"), ("release_date", "ReleaseDate"),
   ("sensor_type", "SensorType"), ("sensor_size", "SensorSize"),
   ("megapixels", "Megapixels"), ("max_resolution", "MaxResolution"),
   ("lens_mount", "LensMount"), ("screen_size", "ScreenSize"),
   ("os", "OperatingSystem"), ("cpu", "Processor"), ("storage", "Storage"),
   ("battery", "Battery"), ("weight", "Weight"), ("dimensions", "Dimensions"),
   ("price", "Price"), ("url", "ProductURL")]

/-- `DeviceIdentifier._format_db_device_info` (lines 773-811). -/
def formatDbDeviceInfo (e : Meta) : Meta :=
  dbFieldMapping.foldl
    (fun acc p =>
      match getTruthy e p.1 with
      | some v => setA acc p.2 v
      | none => acc) []

/-- `entry.get(k, '').lower()`; the shipped database (absent from the repo,
so empty at runtime) holds string fields, non-strings are not modelled. -/
def dbGetStrL (e : Meta) (k : String) : String :=
  match getA e k with
  | some (.pyStr s) => lowerStr s
  | _ => ""

/-- `DeviceIdentifier._lookup_device_in_database` (lines 694-771): exact
make+model match, then same-make fuzzy model match, then best weighted
similarity above 0.7. -/
def lookupDeviceInDatabase (db : DeviceDb) (lev : Bool) (make model : Option String)
    (dt : Option Value) : Meta :=
  if !optTruthy make || !optTruthy model || db.isEmpty then []
  else
    let makeL := lowerStr (make.getD "")
    let modelL := lowerStr (model.getD "")
    let cat :=
      if dtIs dt "Smartphone" then "phones"
      else if dtIs dt "Tablet" then "phones"
      else if dtIs dt "Drone" then "cameras"
      else "cameras"
    match lookAL db cat with
    | none => []
    | some entries =>
      match firstSome entries (fun p =>
        if dbGetStrL p.2 "make" = makeL ∧ dbGetStrL p.2 "model" = modelL then
          some (formatDbDeviceInfo p.2)
        else none) with
      | some r => r
      | none =>
        match firstSome entries (fun p =>
          let dbMake := dbGetStrL p.2 "make"
          let dbModel := dbGetStrL p.2 "model"
          if dbMake = makeL
              ∧ (strHas dbModel modelL ∨ strHas modelL dbModel
                 ∨ stringSimilarity lev dbModel modelL > 8 / 10) then
            some (formatDbDeviceInfo p.2)
          else none) with
        | some r => r
        | none =>
          let best := entries.foldl
            (fun (acc : ℚ × Option Meta) p =>
              let makeScore := stringSimilarity lev (dbGetStrL p.2 "make") makeL
              let modelScore := stringSimilarity lev (dbGetStrL p.2 "model") modelL
              let sc := makeScore * (4 / 10) + modelScore * (6 / 10)
              if sc > acc.1 ∧ sc > 7 / 10 then (sc, some p.2) else acc)
            (0, none)
          match best.2 with
          | some e => formatDbDeviceInfo e
          | none => []

def knownManufacturerPairs : List (String × String) :=
  [("apple", "Apple"), ("samsung", "Samsung"), ("huawei", "Huawei"),
   ("xiaomi", "Xiaomi"), ("google", "Google"), ("oneplus", "OnePlus"),
   ("oppo", "OPPO"), ("vivo", "Vivo"), ("motorola", "Motorola"), ("lg", "LG"),
   ("sony", "Sony"), ("htc", "HTC"), ("nokia", "Nokia"), ("asus", "ASUS"),
   ("lenovo", "Lenovo"), ("zte", "ZTE"), ("canon", "Canon"), ("nikon", "Nikon"),
   ("fuji", "Fujifilm"), ("fujifilm", "Fujifilm"), ("olympus", "Olympus"),
   ("panasonic", "Panasonic"), ("pentax", "Pentax"), ("leica", "Leica"),
   ("hasselblad", "Hasselblad"), ("kodak", "Kodak"), ("sigma", "Sigma"),
   ("ricoh", "Ricoh"), ("gopro", "GoPro"), ("dji", "DJI")]

/-- `DeviceIdentifier._normalize_manufacturer` (lines 852-873); the dict's
duplicate `'sony'` entry re-assigns the same value and keeps the first
position, so the iteration is the first-occurrence list. -/
def normalizeManufacturer (make : String) : String :=
  if make = "" then make
  else
    let makeL := lowerStr make
    match firstSome knownManufacturerPairs (fun p =>
      if p.1 = makeL ∨ strStarts makeL p.1 then some p.2 else none) with
    | some s => s
    | none => make

/-- `DeviceIdentifier.identify_device` (lines 140-205).  The model is total,
so the broad `except` that returns a partial profile is dead here. -/
def identifyDevice (fs : ℚ → String) (db : DeviceDb) (lev : Bool) (m : Meta) : Meta :=
  let (make, model) := extractMakeModel fs m
  let software := extractSoftware fs m
  let d : Meta := []
  let d := if optTruthy make then setA d "DeviceMake" (.pyStr (make.getD "")) else d
  let d := if optTruthy model then setA d "DeviceModel" (.pyStr (model.getD "")) else d
  let d := if optTruthy software then setA d "Software" (.pyStr (software.getD "")) else d
  let devType := identifyDeviceType make model m
  let d :=
    match devType with
    | some v => if truthy v then setA d "DeviceType" v else d
    | none => d
  let d :=
    if dtIs devType "Camera" then
      let li := extractLensInfo fs m
      if li.isEmpty then d else updA d li
    else d
  let d :=
    let ai := extractAdditionalDeviceInfo fs m devType
    if ai.isEmpty then d else updA d ai
  let d :=
    let dbInfo := lookupDeviceInDatabase db lev make model devType
    if dbInfo.isEmpty then d
    else dbInfo.foldl (fun acc kv => if memKey acc kv.1 then acc else setA acc kv.1 kv.2) d
  let d :=
    if optTruthy make && !memKey d "Manufacturer" then
      let nm := normalizeManufacturer (make.getD "")
      if nm ≠ make.getD "" then setA d "Manufacturer" (.pyStr nm) else d
    else d
  if optTruthy make && optTruthy model && !memKey d "DeviceName" then
    setA d "DeviceName" (.pyStr (make.getD "" ++ " " ++ model.getD ""))
  else d

/-! ## DeviceIdentifier: privacy assessment (lines 1287-1405) -/

/-- Mutable assessment state (`PrivacyRisk`, `SensitiveDataPresent`,
`Recommendations`). -/
structure PrivA where
  risk : String
  sensitive : Bool
  recs : List String
deriving Repr, DecidableEq

def presentNotNone (m : Meta) (k : String) : Bool :=
  match getA m k with
  | some .pyNone => false
  | some _ => true
  | none => false

def presentTruthy (m : Meta) (k : String) : Bool := (getTruthy m k).isSome

def privGpsKeys : List String :=
  ["GPS:GPSLatitude", "GPS:GPSLongitude", "GPSLatitude", "GPSLongitude",
   "Latitude", "Longitude"]

def privSerialKeys : List String :=
  ["SerialNumber", "CameraSerialNumber", "BodySerialNumber", "LensSerialNumber"]

def privOwnerKeys : List String :=
  ["OwnerName", "CameraOwnerName", "Artist", "Author", "Creator", "By-line"]

def privDeviceIdNames : List String := ["DeviceID", "UniqueID", "IMEI", "UUID"]

def privTimestampKeys : List String :=
  ["DateTimeOriginal", "CreateDate", "ModifyDate", "DateCreated"]

def privSoftwareKeys : List String := ["Software", "ProcessingSoftware", "CreatorTool"]

def hasGpsSignal (m : Meta) : Bool := privGpsKeys.any (presentNotNone m)

def hasSerialSignal (m : Meta) : Bool := privSerialKeys.any (presentTruthy m)

def hasOwnerSignal (m : Meta) : Bool := privOwnerKeys.any (presentTruthy m)

def hasDeviceIdSignal (m : Meta) : Bool :=
  m.any fun kv => privDeviceIdNames.any (strHas kv.1) && truthy kv.2

def hasTimestampSignal (m : Meta) : Bool := privTimestampKeys.any (presentTruthy m)

def hasSoftwareSignal (m : Meta) : Bool := privSoftwareKeys.any (presentTruthy m)

/-- GPS check (lines 1306-1318): present GPS data is terminal `High`. -/
def privStepGps (m : Meta) (a : PrivA × List String) : PrivA × List String :=
  if hasGpsSignal m then
    ({ risk := "High", sensitive := true,
       recs := a.1.recs ++ ["Remove GPS data to protect location privacy"] },
     a.2 ++ ["GPS Location"])
  else a

/-- Serial-number check (lines 1320-1333): `Medium` unless already `High`. -/
def privStepSerial (m : Meta) (a : PrivA × List String) : PrivA × List String :=
  if hasSerialSignal m then
    ({ risk := if a.1.risk ≠ "High" then "Medium" else a.1.risk, sensitive := true,
       recs := a.1.recs ++ ["Remove serial numbers to prevent device tracking"] },
     a.2 ++ ["Serial Number"])
  else a

/-- Owner/author check (lines 1335-1348). -/
def privStepOwner (m : Meta) (a : PrivA × List String) : PrivA × List String :=
  if hasOwnerSignal m then
    ({ risk := if a.1.risk ≠ "High" then "Medium" else a.1.risk, sensitive := true,
       recs := a.1.recs ++ ["Remove owner/author information for anonymity"] },
     a.2 ++ ["Owner/Author Information"])
  else a

/-- Device-identifier check (lines 1350-1364), smartphones/tablets only. -/
def privStepDeviceId (m : Meta) (dt : Value) (a : PrivA × List String) : PrivA × List String :=
  if (valEqStr dt "Smartphone" || valEqStr dt "Tablet") && hasDeviceIdSignal m then
    ({ risk := if a.1.risk ≠ "High" then "Medium" else a.1.risk, sensitive := true,
       recs := a.1.recs ++ ["Remove unique device identifiers"] },
     a.2 ++ ["Device Identifier"])
  else a

/-- Timestamp check (lines 1366-1380): low-risk only when nothing else has
set `SensitiveDataPresent`. -/
def privStepTimestamp (m : Meta) (a : PrivA × List String) : PrivA × List String :=
  if hasTimestampSignal m then
    ({ risk := if !a.1.sensitive then "Low" else a.1.risk,
       sensitive := if !a.1.sensitive then true else a.1.sensitive,
       recs := a.1.recs ++ ["Consider removing timestamps if time information is sensitive"] },
     a.2 ++ ["Timestamp"])
  else a

/-- Software check (lines 1382-1396), same low-risk rule. -/
def privStepSoftware (m : Meta) (a : PrivA × List String) : PrivA × List String :=
  if hasSoftwareSignal m then
    ({ risk := if !a.1.sensitive then "Low" else a.1.risk,
       sensitive := if !a.1.sensitive then true else a.1.sensitive,
       recs := a.1.recs ++ ["Consider removing software information to hide workflow details"] },
     a.2 ++ ["Software Information"])
  else a

def privSteps (m : Meta) (dt : Value) : List ((PrivA × List String) → PrivA × List String) :=
  [privStepGps m, privStepSerial m, privStepOwner m, privStepDeviceId m dt,
   privStepTimestamp m, privStepSoftware m]

def privInit : PrivA × List String := ({ risk := "Low", sensitive := false, recs := [] }, [])

/-- The six category checks of `_assess_privacy_implications` in source
order, folded over the initial assessment. -/
def assessCore (m : Meta) (dt : Value) : PrivA × List String :=
  (privSteps m dt).foldl (fun a f => f a) privInit

/-- All intermediate assessment states of one pass (initial state included). -/
def assessTrace (m : Meta) (dt : Value) : List (PrivA × List String) :=
  (privSteps m dt).scanl (fun a f => f a) privInit

/-- `DeviceIdentifier._assess_privacy_implications` (lines 1287-1405). -/
def assessPrivacyImplications (m : Meta) (dt : Value) : Meta :=
  let (a, fields) := assessCore m dt
  let recs :=
    if a.sensitive then a.recs ++ ["Use metadata cleaning tools before sharing images publicly"]
    else a.recs ++ ["No sensitive metadata detected"]
  let out : Meta :=
    [("PrivacyRisk", .pyStr a.risk), ("SensitiveDataPresent", .pyBool a.sensitive),
     ("Recommendations", .pyList (recs.map .pyStr))]
  if a.sensitive then setA out "SensitiveFields" (.pyList (fields.map .pyStr)) else out

/-! ## DeviceIdentifier: camera settings (lines 1160-1285) -/

def cameraSettingPairs : List (String × String) :=
  [("FNumber", "Aperture"), ("ApertureValue", "Aperture"),
   ("FocalLength", "FocalLength"), ("FocalLengthIn35mmFormat", "FocalLength35mm"),
   ("ExposureTime", "ExposureTime"), ("ShutterSpeedValue", "ShutterSpeed"),
   ("ISOSpeedRatings", "ISO"), ("ISO", "ISO"), ("WhiteBalance", "WhiteBalance"),
   ("MeteringMode", "MeteringMode"), ("ExposureProgram", "ExposureProgram"),
   ("ExposureMode", "ExposureMode"), ("ExposureCompensation", "ExposureCompensation"),
   ("Flash", "Flash"), ("FlashMode", "FlashMode"), ("FocusMode", "FocusMode"),
   ("DigitalZoomRatio", "DigitalZoom")]

def settingKeyVariants (k : String) : List String :=
  [k, "EXIF:" ++ k, "MakerNotes:" ++ k, "XMP:" ++ k, "Image " ++ k]

/-- The main alias loop of `_extract_camera_settings` (lines 1194-1223);
`ExposureTime = 0` hits `round(1 / value)` and raises `ZeroDivisionError`. -/
def camSettingsLoop (fs : ℚ → String) (m : Meta) :
    List (String × String) → Meta → Except PyErr Meta
  | [], acc => .ok acc
  | (ek, name) :: rest, acc =>
    match firstSome (settingKeyVariants ek) (fun k =>
      match getA m k with
      | some .pyNone => none
      | some v => some v
      | none => none) with
    | none => camSettingsLoop fs m rest acc
    | some v =>
      if name = "Aperture" ∧ isNumericVal v then
        camSettingsLoop fs m rest (setA acc name (.pyStr ("f/" ++ pyNumStr fs v)))
      else if name = "FocalLength" ∧ isNumericVal v then
        camSettingsLoop fs m rest (setA acc name (.pyStr (pyNumStr fs v ++ "mm")))
      else if name = "ExposureTime" ∧ isNumericVal v then
        let q := numQ v
        if q < 1 then
          if q = 0 then .error .zeroDiv
          else camSettingsLoop fs m rest (setA acc name (.pyStr ("1/" ++ intStr (pyRound (1 / q)) ++ "s")))
        else camSettingsLoop fs m rest (setA acc name (.pyStr (pyNumStr fs v ++ "s")))
      else camSettingsLoop fs m rest (setA acc name v)

def flashTable : List (ℤ × String) :=
  [(0, "No Flash"), (1, "Flash Fired"), (5, "Flash Fired, Return not detected"),
   (7, "Flash Fired, Return detected"), (8, "On, Flash did not fire"),
   (9, "Flash Fired, Compulsory mode"),
   (13, "Flash Fired, Compulsory mode, Return not detected"),
   (15, "Flash Fired, Compulsory mode, Return detected"),
   (16, "Off, Flash did not fire"),
   (24, "Off, Flash did not fire, Return not detected"),
   (25, "Flash Fired, Auto mode"),
   (29, "Flash Fired, Auto mode, Return not detected"),
   (31, "Flash Fired, Auto mode, Return detected"), (32, "No flash function"),
   (65, "Flash Fired, Red-eye reduction"),
   (69, "Flash Fired, Red-eye reduction, Return not detected"),
   (71, "Flash Fired, Red-eye reduction, Return detected"),
   (73, "Flash Fired, Compulsory mode, Red-eye reduction"),
   (77, "Flash Fired, Compulsory mode, Red-eye reduction, Return not detected"),
   (79, "Flash Fired, Compulsory mode, Red-eye reduction, Return detected"),
   (89, "Flash Fired, Auto mode, Red-eye reduction"),
   (93, "Flash Fired, Auto mode, Red-eye reduction, Return not detected"),
   (95, "Flash Fired, Auto mode, Red-eye reduction, Return detected")]

def meteringTable : List (ℤ × String) :=
  [(0, "Unknown"), (1, "Average"), (2, "Center-weighted average"), (3, "Spot"),
   (4, "Multi-spot"), (5, "Pattern"), (6, "Partial"), (255, "Other")]

def whiteBalanceTable : List (ℤ × String) := [(0, "Auto"), (1, "Manual")]

/-- Decode an integer/digit-string code through a fixed table with the
`"Unknown (<n>)"` fallback (lines 1226-1283). -/
def decodeIntCode (table : List (ℤ × String)) (v : Value) : Option Value :=
  match v with
  | .pyInt n => some (.pyStr ((lookCode table n).getD ("Unknown (" ++ intStr n ++ ")")))
  | .pyBool b =>
    let n : ℤ := if b then 1 else 0
    some (.pyStr ((lookCode table n).getD ("Unknown (" ++ intStr n ++ ")")))
  | .pyStr s =>
    if digitsOnly s then
      let n : ℤ := digitsVal s.data
      some (.pyStr ((lookCode table n).getD ("Unknown (" ++ intStr n ++ ")")))
    else none
  | _ => none

def postDecodeSetting (key : String) (table : List (ℤ × String)) (acc : Meta) : Meta :=
  match getA acc key with
  | some v =>
    match decodeIntCode table v with
    | some v' => setA acc key v'
    | none => acc
  | none => acc

/-- `DeviceIdentifier._extract_camera_settings` (lines 1160-1285). -/
def extractCameraSettings (fs : ℚ → String) (m : Meta) : Except PyErr Meta :=
  match camSettingsLoop fs m cameraSettingPairs [] with
  | .error e => .error e
  | .ok s =>
    .ok (postDecodeSetting "WhiteBalance" whiteBalanceTable
      (postDecodeSetting "MeteringMode" meteringTable
        (postDecodeSetting "Flash" flashTable s)))

/-! ## MetadataExtractor (src/core/metadata_extractor.py) -/

mutual
/-- `MetadataExtractor._clean_value` (lines 1388-1460).  Byte decoding is
modelled for ASCII content (multi-byte UTF-8 does not occur in the claims);
`datetime` values are outside the modelled `Value` universe. -/
def cleanValue : Value → Option Value
  | .pyNone => none
  | .pyBool b => some (.pyBool b)
  | .pyInt n => some (.pyInt n)
  | .pyFloat q => some (.pyFloat q)
  | .pyBytes bs =>
    match decodeAscii bs with
    | some s =>
      let t := strStrip (String.mk (stripCh '\x00' s.data))
      if t ≠ "" then some (.pyStr t) else none
    | none => none
  | .pyStr s =>
    let t := strStrip (String.mk (stripCh '\x00' s.data))
    if t ≠ "" then some (.pyStr t) else none
  | .pyList vs => cleanValueSeq vs
  | .pyTuple vs => cleanValueSeq vs
  | .pyDict kvs =>
    match cleanValueKVs kvs with
    | [] => none
    | cleaned => some (.pyDict cleaned)
  | .pyFrac n d =>
    if d = 0 then some (.pyInt 0)
    else if d = 1 then some (.pyInt n)
    else some (.pyFloat ((n : ℚ) / d))
/-- The list/tuple arm of `_clean_value` (lines 1422-1431). -/
def cleanValueSeq (vs : List Value) : Option Value :=
  match cleanValueList vs with
  | [] => none
  | [v] => some v
  | cleaned => some (.pyList cleaned)
def cleanValueList : List Value → List Value
  | [] => []
  | v :: rest =>
    match cleanValue v with
    | some c => c :: cleanValueList rest
    | none => cleanValueList rest
def cleanValueKVs : List (String × Value) → List (String × Value)
  | [] => []
  | (k, v) :: rest =>
    match cleanValue v with
    | some c => (k, c) :: cleanValueKVs rest
    | none => cleanValueKVs rest
end

/-- One item of the rational-list comprehension of `_process_piexif_data`
(lines 1041-1046); non-integer pairs do not occur in piexif output. -/
def piexifRatItem (x : Value) : Value :=
  match x with
  | .pyTuple [.pyInt n, .pyInt d] =>
    if d = 0 then .pyInt 0
    else if d = 1 then .pyInt n
    else .pyFloat ((n : ℚ) / d)
  | _ => x

def isLenTwoTuple : Value → Bool
  | .pyTuple vs => vs.length = 2
  | _ => false

/-- The per-tag value processing of `MetadataExtractor._process_piexif_data`
(lines 1015-1049): bytes are decoded and only kept when non-empty, an
integer rational pair is normalized (denominator `0` → integer `0`,
denominator `1` → integer numerator, else float quotient), a list of
rational pairs is normalized pointwise, everything else is kept raw.
`none` means the tag is dropped. -/
def processPiexifValue (v : Value) : Option Value :=
  match v with
  | .pyBytes bs =>
    let s := strStrip (String.mk (stripCh '\x00' (bs.map Char.ofNat)))
    if s ≠ "" then some (.pyStr s) else none
  | .pyTuple vs =>
    match vs with
    | [.pyInt n, .pyInt d] =>
      if d = 0 then some (.pyInt 0)
      else if d = 1 then some (.pyInt n)
      else some (.pyFloat ((n : ℚ) / d))
    | _ => some (.pyTuple vs)
  | .pyList vs =>
    if vs.all isLenTwoTuple then some (.pyList (vs.map piexifRatItem))
    else some (.pyList vs)
  | v => some v

/-! ### Derived metadata (lines 1462-1590) -/

/-- A parsed `datetime` as produced by `datetime.strptime`. -/
structure Dt where
  year : ℤ
  month : ℕ
  day : ℕ
  hour : ℕ
  minute : ℕ
  second : ℕ
deriving Repr, DecidableEq

def fmt04d (n : ℤ) : String :=
  if n < 0 then "-" ++ natStr (-n).toNat else String.mk (padZeros 4 (natDigits n.toNat))

/-- `dt.strftime('%Y-%m-%d %H:%M:%S')`. -/
def dtRender (dt : Dt) : String :=
  fmt04d dt.year ++ "-" ++ fmt02d dt.month ++ "-" ++ fmt02d dt.day ++ " "
    ++ fmt02d dt.hour ++ ":" ++ fmt02d dt.minute ++ ":" ++ fmt02d dt.second

def dateFormatList : List String :=
  ["%Y:%m:%d %H:%M:%S", "%Y-%m-%d %H:%M:%S", "%Y/%m/%d %H:%M:%S",
   "%Y:%m:%d", "%Y-%m-%d", "%Y/%m/%d"]

def commonRatioTable : List (ℚ × String) :=
  [(1, "1:1 (Square)"), (133 / 100, "4:3"), (3 / 2, "3:2"), (178 / 100, "16:9"),
   (185 / 100, "1.85:1 (Cinema)"), (235 / 100, "2.35:1 (Cinemascope)"),
   (3 / 4, "3:4 (Portrait)"), (67 / 100, "2:3 (Portrait)"), (56 / 100, "9:16 (Portrait)")]

/-- `min(common_ratios.keys(), key=lambda x: abs(x - ar))`: first minimal in
iteration order. -/
def closestRatioKey (ar : ℚ) : ℚ :=
  match commonRatioTable with
  | [] => 0
  | (q, _) :: rest => rest.foldl (fun best p => if |p.1 - ar| < |best - ar| then p.1 else best) q

def ratioNameOf (q : ℚ) : String :=
  ((commonRatioTable.find? fun p => p.1 = q).map Prod.snd).getD ""

/-- The aspect-ratio block of `_add_derived_metadata` (lines 1476-1502); its
`try` swallows `ValueError`/`TypeError` from the `float()` coercions. -/
def aspectStep (r : Meta) : Meta :=
  if memKey r "ImageWidth" && memKey r "ImageHeight" then
    match (getA r "ImageWidth").bind floatOfValue, (getA r "ImageHeight").bind floatOfValue with
    | some w, some h =>
      if w > 0 ∧ h > 0 then
        let ar := w / h
        let r1 := setA r "AspectRatio" (.pyFloat (roundDp 3 ar))
        let ck := closestRatioKey ar
        if |ck - ar| < 1 / 20 then setA r1 "AspectRatioName" (.pyStr (ratioNameOf ck)) else r1
      else r
    | _, _ => r
  else r

/-- The megapixel block (lines 1505-1513). -/
def megapixelStep (r : Meta) : Meta :=
  if memKey r "ImageWidth" && memKey r "ImageHeight" then
    match (getA r "ImageWidth").bind floatOfValue, (getA r "ImageHeight").bind floatOfValue with
    | some w, some h =>
      if w > 0 ∧ h > 0 then setA r "Megapixels" (.pyFloat (roundDp 2 (w * h / 1000000)))
      else r
    | _, _ => r
  else r

def dateDeriveList : List (String × String) :=
  [("DateTimeOriginal", "DateTaken"), ("CreateDate", "DateCreated"),
   ("ModifyDate", "DateModified")]

/-- One source/target pair of the date-derivation block (lines 1522-1542):
derive only when the source exists and the target does not.
`datetime.strptime` is an external stdlib collaborator, taken as the
parameter `pt` (string and format to parsed value, `none` = `ValueError`);
the surrounding bare `except` also swallows the `TypeError` on non-string
sources. -/
def dateStepBody (pt : String → String → Option Dt) (acc : Meta) (p : String × String) :
    Meta :=
  if memKey acc p.1 && !memKey acc p.2 then
    match getA acc p.1 with
    | some (.pyStr s) =>
      match firstSome dateFormatList (fun fmt => pt s fmt) with
      | some dt => setA acc p.2 (.pyStr (dtRender dt))
      | none => acc
    | _ => acc
  else acc

/-- The date-derivation block of `_add_derived_metadata` (lines 1516-1542). -/
def dateStep (pt : String → String → Option Dt) (r : Meta) : Meta :=
  dateDeriveList.foldl (dateStepBody pt) r

def exposureFieldPairs : List (String × String) :=
  [("FNumber", "F-Stop"), ("ExposureTime", "Exposure Time"),
   ("ISOSpeedRatings", "ISO"), ("FocalLength", "Focal Length")]

/-- One entry of the exposure summary (lines 1565-1585); a numeric
`ExposureTime` of `0` raises `ZeroDivisionError` (there is no `try` around
this block). -/
def exposureItem (fs : ℚ → String) (r : Meta) (src label : String) :
    Except PyErr (Option String) :=
  match getA r src with
  | none => .ok none
  | some v =>
    if src = "FNumber" ∧ isNumericVal v then
      .ok (some (label ++ ": f/" ++ pyNumStr fs v))
    else if src = "ExposureTime" ∧ isNumericVal v then
      let q := numQ v
      if q < 1 then
        if q = 0 then .error .zeroDiv
        else .ok (some (label ++ ": 1/" ++ intStr (pyRound (1 / q)) ++ "s"))
      else .ok (some (label ++ ": " ++ pyNumStr fs v ++ "s"))
    else if src = "FocalLength" ∧ isNumericVal v then
      .ok (some (label ++ ": " ++ pyNumStr fs v ++ "mm"))
    else .ok (some (label ++ ": " ++ pyStrOfVal fs v))

def exposureEntries (fs : ℚ → String) (r : Meta) :
    List (String × String) → Except PyErr (List String)
  | [] => .ok []
  | (src, label) :: rest =>
    match exposureItem fs r src label with
    | .error e => .error e
    | .ok it =>
      match exposureEntries fs r rest with
      | .error e => .error e
      | .ok its => .ok (it.toList ++ its)

/-- The `CameraInfo` block of `_add_derived_metadata` (lines 1544-1553): the
`" - ".join` raises `TypeError` when a collected value is not a string. -/
def cameraInfoStep (r : Meta) : Except PyErr Meta :=
  let cameraVals := (["Make", "Model", "Software"].map (getA r)).filterMap id
  if cameraVals.isEmpty then .ok r
  else
    match joinVals " - " cameraVals with
    | .ok s => .ok (setA r "CameraInfo" (.pyStr s))
    | .error e => .error e

/-- The `ExposureInfo` block of `_add_derived_metadata` (lines 1555-1588). -/
def exposureStep (fs : ℚ → String) (r : Meta) : Except PyErr Meta :=
  match exposureEntries fs r exposureFieldPairs with
  | .error e => .error e
  | .ok items =>
    .ok (if items.isEmpty then r else setA r "ExposureInfo" (.pyStr (sepJoin ", " items)))

/-- `MetadataExtractor._add_derived_metadata` (lines 1462-1590), the blocks
in source order.  The `CameraInfo` join can raise `TypeError` and the
exposure block `ZeroDivisionError`; neither is caught in the source. -/
def addDerivedMetadata (fs : ℚ → String) (pt : String → String → Option Dt)
    (m : Meta) : Except PyErr Meta :=
  (cameraInfoStep (dateStep pt (megapixelStep (aspectStep m)))).bind (exposureStep fs)

/-- The device-profile fold of `MetadataExtractor.extract` (lines 136-139):
`metadata.update(device_info)`. -/
def applyDeviceInfo (fs : ℚ → String) (db : DeviceDb) (lev : Bool) (m : Meta) : Meta :=
  let dev := identifyDevice fs db lev m
  if dev.isEmpty then m else updA m dev

/-! ## Dictionary lemmas -/

theorem getA_setA_self (m : Meta) (k : String) (v : Value) :
    getA (setA m k v) k = some v := by
  induction m with
  | nil => simp [setA, getA]
  | cons kv rest ih =>
    obtain ⟨k', v'⟩ := kv
    by_cases h : k' = k
    · simp [setA, h, getA]
    · simp [setA, h, getA, ih]

theorem getA_setA_ne (m : Meta) (k k' : String) (v : Value) (h : k ≠ k') :
    getA (setA m k v) k' = getA m k' := by
  induction m with
  | nil => simp [setA, getA, h]
  | cons kv rest ih =>
    obtain ⟨k1, v1⟩ := kv
    by_cases h1 : k1 = k
    · subst h1
      simp [setA, getA, h]
    · simp [setA, h1, getA, ih]

theorem memKey_setA (m : Meta) (k k' : String) (v : Value) (h : memKey m k' = true) :
    memKey (setA m k v) k' = true := by
  by_cases hk : k = k'
  · subst hk
    simp [memKey, getA_setA_self]
  · simpa [memKey, getA_setA_ne m k k' v hk] using h

theorem getA_updA_notMem (m : Meta) (new : Meta) (k : String)
    (h : memKey new k = false) : getA (updA m new) k = getA m k := by
  induction new generalizing m with
  | nil => simp [updA]
  | cons kv rest ih =>
    obtain ⟨k1, v1⟩ := kv
    have hne : k1 ≠ k := by
      intro hk
      subst hk
      simp [memKey, getA] at h
    have hrest : memKey rest k = false := by
      simpa [memKey, getA, hne] using h
    have : updA m ((k1, v1) :: rest) = updA (setA m k1 v1) rest := by
      simp [updA]
    rw [this, ih _ hrest, getA_setA_ne _ _ _ _ hne]

/-! ## Claim C4: zero-denominator rationals normalize to the integer 0 -/

/-- C4: for every rational pair `(n, d)` processed during normalization, a
denominator of `0` never raises a division fault: both `_clean_value`'s
`Fraction` arm and `_process_piexif_data`'s rational arms are total and
return the integer `0` for such a pair (list elements included). -/
theorem rational_zero_denominator (n d : ℤ) (h : d = 0) :
    cleanValue (.pyFrac n d) = some (.pyInt 0)
    ∧ processPiexifValue (.pyTuple [.pyInt n, .pyInt d]) = some (.pyInt 0)
    ∧ piexifRatItem (.pyTuple [.pyInt n, .pyInt d]) = .pyInt 0 := by
  subst h
  refine ⟨?_, ?_, ?_⟩ <;> simp [cleanValue, processPiexifValue, piexifRatItem]

theorem rational_zero_denominator_witness :
    cleanValue (.pyFrac 5 0) = some (.pyInt 0)
    ∧ processPiexifValue (.pyTuple [.pyInt 5, .pyInt 0]) = some (.pyInt 0)
    ∧ piexifRatItem (.pyTuple [.pyInt 5, .pyInt 0]) = .pyInt 0 :=
  rational_zero_denominator 5 0 rfl

/-! ## Claim C5: the orchestrator fold overwrites extraction fields -/

/-- C5 counterexample: the fold `metadata.update(device_info)` of
`MetadataExtractor.extract` does overwrite an identically-named extraction
field: a record whose `Software` value is `"Adobe  Photoshop"` (two spaces)
ends up with the profile's cleaned value `"Adobe Photoshop"`. -/
theorem profile_fold_overwrites :
    getA [("Software", Value.pyStr "Adobe  Photoshop")] "Software"
      = some (.pyStr "Adobe  Photoshop")
    ∧ getA (applyDeviceInfo (fun _ => "") [] true
        [("Software", Value.pyStr "Adobe  Photoshop")]) "Software"
      = some (.pyStr "Adobe Photoshop")
    ∧ "Adobe  Photoshop" ≠ "Adobe Photoshop" := by
  refine ⟨rfl, rfl, by decide⟩

/-- C5 amended: the fold has `dict.update` semantics: every key the profile
does not produce keeps its extraction value, while a profile field replaces
an identically-named extraction field (shown concretely on `Software`). -/
theorem profile_fold_update_semantics :
    (∀ (fs : ℚ → String) (db : DeviceDb) (lev : Bool) (m : Meta) (k : String),
      memKey (identifyDevice fs db lev m) k = false →
      getA (applyDeviceInfo fs db lev m) k = getA m k)
    ∧ getA (applyDeviceInfo (fun _ => "") [] true
        [("Software", Value.pyStr "Foo  Bar"), ("Other", Value.pyStr "keep")]) "Software"
      = some (.pyStr "Foo Bar") := by
  constructor
  · intro fs db lev m k h
    show getA (if (identifyDevice fs db lev m).isEmpty then m
      else updA m (identifyDevice fs db lev m)) k = getA m k
    split
    · rfl
    · exact getA_updA_notMem m _ k h
  · rfl

theorem profile_fold_update_semantics_witness :
    memKey (identifyDevice (fun _ => "") [] true [("Other", Value.pyStr "keep")]) "Other" = false
    ∧ getA (applyDeviceInfo (fun _ => "") [] true [("Other", Value.pyStr "keep")]) "Other"
      = getA [("Other", Value.pyStr "keep")] "Other" :=
  ⟨rfl, profile_fold_update_semantics.1 (fun _ => "") [] true
    [("Other", Value.pyStr "keep")] "Other" rfl⟩

/-! ## Claim C3: derived fields and existing keys -/

theorem aspectStep_frame (r : Meta) (k : String)
    (h1 : "AspectRatio" ≠ k) (h2 : "AspectRatioName" ≠ k) :
    getA (aspectStep r) k = getA r k := by
  unfold aspectStep
  split
  · split
    · split
      · dsimp only
        split
        · rw [getA_setA_ne _ _ _ _ h2, getA_setA_ne _ _ _ _ h1]
        · rw [getA_setA_ne _ _ _ _ h1]
      · rfl
    · rfl
  · rfl

theorem aspectStep_mem (r : Meta) (k : String) (h : memKey r k = true) :
    memKey (aspectStep r) k = true := by
  unfold aspectStep
  split
  · split
    · split
      · dsimp only
        split
        · exact memKey_setA _ _ _ _ (memKey_setA _ _ _ _ h)
        · exact memKey_setA _ _ _ _ h
      · exact h
    · exact h
  · exact h

theorem megapixelStep_frame (r : Meta) (k : String) (h1 : "Megapixels" ≠ k) :
    getA (megapixelStep r) k = getA r k := by
  unfold megapixelStep
  split
  · split
    · split
      · rw [getA_setA_ne _ _ _ _ h1]
      · rfl
    · rfl
  · rfl

theorem megapixelStep_mem (r : Meta) (k : String) (h : memKey r k = true) :
    memKey (megapixelStep r) k = true := by
  unfold megapixelStep
  split
  · split
    · split
      · exact memKey_setA _ _ _ _ h
      · exact h
    · exact h
  · exact h

theorem dateStepBody_frame (pt : String → String → Option Dt) (acc : Meta)
    (p : String × String) (k : String) (h : memKey acc k = true) :
    getA (dateStepBody pt acc p) k = getA acc k
    ∧ memKey (dateStepBody pt acc p) k = true := by
  unfold dateStepBody
  split
  · rename_i hguard
    split
    · split
      · rename_i s _ dt _
        by_cases hk : p.2 = k
        · subst hk
          simp only [Bool.and_eq_true, Bool.not_eq_true'] at hguard
          rw [hguard.2] at h
          exact absurd h (by simp)
        · exact ⟨getA_setA_ne _ _ _ _ hk, memKey_setA _ _ _ _ h⟩
      · exact ⟨rfl, h⟩
    · exact ⟨rfl, h⟩
  · exact ⟨rfl, h⟩

theorem dateFold_frame (pt : String → String → Option Dt)
    (l : List (String × String)) (acc : Meta) (k : String) (h : memKey acc k = true) :
    getA (l.foldl (dateStepBody pt) acc) k = getA acc k
    ∧ memKey (l.foldl (dateStepBody pt) acc) k = true := by
  induction l generalizing acc with
  | nil => exact ⟨rfl, h⟩
  | cons p rest ih =>
    have hb := dateStepBody_frame pt acc p k h
    have := ih (dateStepBody pt acc p) hb.2
    exact ⟨by rw [List.foldl_cons, this.1, hb.1], by rw [List.foldl_cons]; exact this.2⟩

def derivedOverwriteKeys : List String :=
  ["AspectRatio", "AspectRatioName", "Megapixels", "CameraInfo", "ExposureInfo"]

/-- C3 counterexample: `_add_derived_metadata` writes `CameraInfo` (and the
other non-date derived fields) unconditionally, so an existing `CameraInfo`
key loses its value. -/
theorem derived_overwrite_cex :
    getA [("Make", Value.pyStr "A"), ("CameraInfo", Value.pyStr "old")] "CameraInfo"
      = some (.pyStr "old")
    ∧ addDerivedMetadata (fun _ => "") (fun _ _ => none)
        [("Make", Value.pyStr "A"), ("CameraInfo", Value.pyStr "old")]
      = .ok [("Make", Value.pyStr "A"), ("CameraInfo", Value.pyStr "A")]
    ∧ "old" ≠ "A" :=
  ⟨rfl, rfl, by decide⟩

/-- C3 amended: the derived fields are computed deterministically from the
present keys; every pre-existing key other than the five unconditionally
recomputed fields (`AspectRatio`, `AspectRatioName`, `Megapixels`,
`CameraInfo`, `ExposureInfo`) keeps its value — the derived date fields in
particular never overwrite — while those five may replace existing values
(shown on `ExposureInfo`). -/
theorem cameraInfoStep_frame (r r' : Meta) (k : String) (h : cameraInfoStep r = .ok r')
    (hne : "CameraInfo" ≠ k) : getA r' k = getA r k := by
  unfold cameraInfoStep at h
  dsimp only at h
  split at h
  · exact (by injection h with h; rw [← h] : r' = r) ▸ rfl
  · split at h
    · injection h with h
      rw [← h, getA_setA_ne _ _ _ _ hne]
    · exact absurd h (by simp)

theorem exposureStep_frame (fs : ℚ → String) (r r' : Meta) (k : String)
    (h : exposureStep fs r = .ok r') (hne : "ExposureInfo" ≠ k) :
    getA r' k = getA r k := by
  unfold exposureStep at h
  split at h
  · exact absurd h (by simp)
  · injection h with h
    rw [← h]
    split
    · rfl
    · rw [getA_setA_ne _ _ _ _ hne]

/-- C3 amended: the derived fields are computed deterministically from the
present keys; every pre-existing key other than the five unconditionally
recomputed fields (`AspectRatio`, `AspectRatioName`, `Megapixels`,
`CameraInfo`, `ExposureInfo`) keeps its value — the derived date fields in
particular never overwrite an existing key — while those five are written
unconditionally and may replace existing values (shown on `ExposureInfo`). -/
theorem derived_fields_frame :
    (∀ (fs : ℚ → String) (pt : String → String → Option Dt) (m r : Meta) (k : String),
      addDerivedMetadata fs pt m = .ok r →
      memKey m k = true → derivedOverwriteKeys.contains k = false →
      getA r k = getA m k)
    ∧ addDerivedMetadata (fun _ => "") (fun _ _ => none)
        [("ISOSpeedRatings", Value.pyStr "100"), ("ExposureInfo", Value.pyStr "old")]
      = .ok [("ISOSpeedRatings", Value.pyStr "100"), ("ExposureInfo", Value.pyStr "ISO: 100")] := by
  constructor
  · intro fs pt m r k h hmem hk
    have hne1 : "AspectRatio" ≠ k := by rintro rfl; simp [derivedOverwriteKeys] at hk
    have hne2 : "AspectRatioName" ≠ k := by rintro rfl; simp [derivedOverwriteKeys] at hk
    have hne3 : "Megapixels" ≠ k := by rintro rfl; simp [derivedOverwriteKeys] at hk
    have hne4 : "CameraInfo" ≠ k := by rintro rfl; simp [derivedOverwriteKeys] at hk
    have hne5 : "ExposureInfo" ≠ k := by rintro rfl; simp [derivedOverwriteKeys] at hk
    have a2 := aspectStep_mem m k hmem
    have b2 := megapixelStep_mem (aspectStep m) k a2
    have c := dateFold_frame pt dateDeriveList (megapixelStep (aspectStep m)) k b2
    have hbase : getA (dateStep pt (megapixelStep (aspectStep m))) k = getA m k := by
      rw [dateStep, c.1, megapixelStep_frame (aspectStep m) k hne3,
        aspectStep_frame m k hne1 hne2]
    unfold addDerivedMetadata at h
    cases hcam : cameraInfoStep (dateStep pt (megapixelStep (aspectStep m))) with
    | error e => rw [hcam] at h; exact absurd h (by simp [Except.bind])
    | ok r4 =>
      rw [hcam] at h
      simp only [Except.bind] at h
      have h4 := cameraInfoStep_frame _ r4 k hcam hne4
      have h5 := exposureStep_frame fs r4 r k h hne5
      rw [h5, h4, hbase]
  · rfl

theorem derived_fields_frame_witness :
    addDerivedMetadata (fun _ => "") (fun _ _ => none) [("Foo", Value.pyStr "v")]
      = .ok [("Foo", Value.pyStr "v")]
    ∧ memKey [("Foo", Value.pyStr "v")] "Foo" = true
    ∧ derivedOverwriteKeys.contains "Foo" = false
    ∧ getA [("Foo", Value.pyStr "v")] "Foo" = getA [("Foo", Value.pyStr "v")] "Foo" :=
  ⟨rfl, rfl, rfl,
    derived_fields_frame.1 (fun _ => "") (fun _ _ => none)
      [("Foo", Value.pyStr "v")] [("Foo", Value.pyStr "v")] "Foo" rfl rfl rfl⟩

/-! ## Claim C9: a numeric ExposureTime of 0 raises -/

/-- C9 (code bug): assembling the `ExposureInfo` summary is *not* total over
numeric `ExposureTime` values: the value `0` satisfies `value < 1` and then
`round(1 / value)` raises an uncaught `ZeroDivisionError`, both in
`_add_derived_metadata` and in `_extract_camera_settings`, aborting the
extraction instead of omitting the field. -/
theorem exposure_time_zero_raises :
    addDerivedMetadata (fun _ => "") (fun _ _ => none) [("ExposureTime", Value.pyInt 0)]
      = .error .zeroDiv
    ∧ extractCameraSettings (fun _ => "") [("EXIF:ExposureTime", Value.pyInt 0)]
      = .error .zeroDiv :=
  ⟨rfl, rfl⟩

/-! ## Claim C2: privacy risk escalation is monotonic -/

def riskRank : String → ℕ
  | "Low" => 0
  | "Medium" => 1
  | "High" => 2
  | _ => 0

/-- Internal invariant of the assessment state: nothing sensitive means the
risk is still `Low`, and `High` risk implies the sensitive flag. -/
def privStateOk (a : PrivA × List String) : Prop :=
  (a.1.sensitive = false → a.1.risk = "Low") ∧ (a.1.risk = "High" → a.1.sensitive = true)

theorem riskRank_le_two (s : String) : riskRank s ≤ 2 := by
  unfold riskRank
  split <;> omega

theorem riskRank_le_one_of_ne_high (s : String) (h : s ≠ "High") : riskRank s ≤ 1 := by
  unfold riskRank
  split <;> simp_all

theorem privStepGps_ok (m : Meta) (a : PrivA × List String) (h : privStateOk a) :
    privStateOk (privStepGps m a)
    ∧ riskRank a.1.risk ≤ riskRank (privStepGps m a).1.risk
    ∧ (a.1.risk = "High" → (privStepGps m a).1.risk = "High") := by
  unfold privStepGps
  split
  · exact ⟨⟨by simp, by simp⟩, by simpa [riskRank] using riskRank_le_two a.1.risk, by simp⟩
  · exact ⟨h, Nat.le_refl _, fun hh => hh⟩

theorem privStepMedium_ok (risk : String) (sens : Bool)
    (h1 : sens = false → risk = "Low") (h2 : risk = "High" → sens = true) :
    ((if risk ≠ "High" then "Medium" else risk) = "High" → True)
    ∧ riskRank risk ≤ riskRank (if risk ≠ "High" then "Medium" else risk)
    ∧ (risk = "High" → (if risk ≠ "High" then "Medium" else risk) = "High") := by
  by_cases hH : risk = "High"
  · subst hH
    simp [riskRank]
  · refine ⟨fun _ => trivial, ?_, fun hh => absurd hh hH⟩
    simp only [hH, ne_eq, not_false_iff, if_true]
    calc riskRank risk ≤ 1 := riskRank_le_one_of_ne_high risk hH
      _ ≤ riskRank "Medium" := by simp [riskRank]

theorem privStepSerial_ok (m : Meta) (a : PrivA × List String) (h : privStateOk a) :
    privStateOk (privStepSerial m a)
    ∧ riskRank a.1.risk ≤ riskRank (privStepSerial m a).1.risk
    ∧ (a.1.risk = "High" → (privStepSerial m a).1.risk = "High") := by
  unfold privStepSerial
  split
  · have := privStepMedium_ok a.1.risk a.1.sensitive h.1 h.2
    refine ⟨⟨by simp, fun _ => by simp⟩, by simpa using this.2.1, by simpa using this.2.2⟩
  · exact ⟨h, Nat.le_refl _, fun hh => hh⟩

theorem privStepOwner_ok (m : Meta) (a : PrivA × List String) (h : privStateOk a) :
    privStateOk (privStepOwner m a)
    ∧ riskRank a.1.risk ≤ riskRank (privStepOwner m a).1.risk
    ∧ (a.1.risk = "High" → (privStepOwner m a).1.risk = "High") := by
  unfold privStepOwner
  split
  · have := privStepMedium_ok a.1.risk a.1.sensitive h.1 h.2
    refine ⟨⟨by simp, fun _ => by simp⟩, by simpa using this.2.1, by simpa using this.2.2⟩
  · exact ⟨h, Nat.le_refl _, fun hh => hh⟩

theorem privStepDeviceId_ok (m : Meta) (dt : Value) (a : PrivA × List String)
    (h : privStateOk a) :
    privStateOk (privStepDeviceId m dt a)
    ∧ riskRank a.1.risk ≤ riskRank (privStepDeviceId m dt a).1.risk
    ∧ (a.1.risk = "High" → (privStepDeviceId m dt a).1.risk = "High") := by
  unfold privStepDeviceId
  split
  · have := privStepMedium_ok a.1.risk a.1.sensitive h.1 h.2
    refine ⟨⟨by simp, fun _ => by simp⟩, by simpa using this.2.1, by simpa using this.2.2⟩
  · exact ⟨h, Nat.le_refl _, fun hh => hh⟩

theorem privStepLow_ok (risk : String) (sens : Bool)
    (h1 : sens = false → risk = "Low") :
    riskRank risk ≤ riskRank (if !sens then "Low" else risk)
    ∧ (risk = "High" → (if !sens then "Low" else risk) = "High")
    ∧ ((if !sens then true else sens) = sens ∨ sens = false) := by
  cases sens with
  | false => simp [h1 rfl]
  | true => simp

theorem privStepTimestamp_ok (m : Meta) (a : PrivA × List String) (h : privStateOk a) :
    privStateOk (privStepTimestamp m a)
    ∧ riskRank a.1.risk ≤ riskRank (privStepTimestamp m a).1.risk
    ∧ (a.1.risk = "High" → (privStepTimestamp m a).1.risk = "High") := by
  unfold privStepTimestamp
  split
  · have := privStepLow_ok a.1.risk a.1.sensitive h.1
    refine ⟨⟨?_, ?_⟩, by simpa using this.1, by simpa using this.2.1⟩
    · cases hs : a.1.sensitive <;> simp [hs]
    · cases hs : a.1.sensitive <;> simp [hs]
  · exact ⟨h, Nat.le_refl _, fun hh => hh⟩

theorem privStepSoftware_ok (m : Meta) (a : PrivA × List String) (h : privStateOk a) :
    privStateOk (privStepSoftware m a)
    ∧ riskRank a.1.risk ≤ riskRank (privStepSoftware m a).1.risk
    ∧ (a.1.risk = "High" → (privStepSoftware m a).1.risk = "High") := by
  unfold privStepSoftware
  split
  · have := privStepLow_ok a.1.risk a.1.sensitive h.1
    refine ⟨⟨?_, ?_⟩, by simpa using this.1, by simpa using this.2.1⟩
    · cases hs : a.1.sensitive <;> simp [hs]
    · cases hs : a.1.sensitive <;> simp [hs]
  · exact ⟨h, Nat.le_refl _, fun hh => hh⟩

theorem getA_assessOut_risk (m : Meta) (dt : Value) :
    getA (assessPrivacyImplications m dt) "PrivacyRisk"
      = some (.pyStr (assessCore m dt).1.risk) := by
  unfold assessPrivacyImplications
  rcases h : assessCore m dt with ⟨a, flds⟩
  dsimp only
  split <;> simp +decide [setA, getA]

/-- C2: within one privacy-assessment pass, the risk only escalates along
`Low < Medium < High` (the trace of intermediate states is monotone in risk
rank) and never downgrades: present GPS keys force `PrivacyRisk = High` and
it stays `High` through all later checks, so a record with both GPS and
serial-number keys yields `High`, never `Medium`. -/
theorem privacy_risk_monotone (m : Meta) (dt : Value) :
    List.Chain' (fun a b => riskRank a.1.risk ≤ riskRank b.1.risk) (assessTrace m dt)
    ∧ (hasGpsSignal m = true →
        getA (assessPrivacyImplications m dt) "PrivacyRisk" = some (.pyStr "High"))
    ∧ (hasGpsSignal m = true → hasSerialSignal m = true →
        getA (assessPrivacyImplications m dt) "PrivacyRisk" = some (.pyStr "High")
        ∧ getA (assessPrivacyImplications m dt) "PrivacyRisk" ≠ some (.pyStr "Medium")) := by
  have ok0 : privStateOk privInit := ⟨fun _ => rfl, by intro h; exact absurd h (by decide)⟩
  have s1 := privStepGps_ok m privInit ok0
  have s2 := privStepSerial_ok m (privStepGps m privInit) s1.1
  have s3 := privStepOwner_ok m (privStepSerial m (privStepGps m privInit)) s2.1
  have s4 := privStepDeviceId_ok m dt
    (privStepOwner m (privStepSerial m (privStepGps m privInit))) s3.1
  have s5 := privStepTimestamp_ok m
    (privStepDeviceId m dt (privStepOwner m (privStepSerial m (privStepGps m privInit)))) s4.1
  have s6 := privStepSoftware_ok m
    (privStepTimestamp m (privStepDeviceId m dt
      (privStepOwner m (privStepSerial m (privStepGps m privInit))))) s5.1
  have hcore : assessCore m dt
      = privStepSoftware m (privStepTimestamp m (privStepDeviceId m dt
          (privStepOwner m (privStepSerial m (privStepGps m privInit))))) := rfl
  have hhigh : hasGpsSignal m = true → (assessCore m dt).1.risk = "High" := by
    intro hgps
    have h1 : (privStepGps m privInit).1.risk = "High" := by
      unfold privStepGps
      rw [hgps]
      simp
    rw [hcore]
    exact s6.2.2 (s5.2.2 (s4.2.2 (s3.2.2 (s2.2.2 h1))))
  refine ⟨?_, ?_, ?_⟩
  · show List.Chain' _
      [privInit, privStepGps m privInit, privStepSerial m (privStepGps m privInit),
       privStepOwner m (privStepSerial m (privStepGps m privInit)),
       privStepDeviceId m dt (privStepOwner m (privStepSerial m (privStepGps m privInit))),
       privStepTimestamp m (privStepDeviceId m dt
         (privStepOwner m (privStepSerial m (privStepGps m privInit)))),
       privStepSoftware m (privStepTimestamp m (privStepDeviceId m dt
         (privStepOwner m (privStepSerial m (privStepGps m privInit)))))]
    simp only [List.chain'_cons, List.chain'_singleton, and_true]
    exact ⟨s1.2.1, s2.2.1, s3.2.1, s4.2.1, s5.2.1, s6.2.1⟩
  · intro hgps
    rw [getA_assessOut_risk, hhigh hgps]
  · intro hgps _
    refine ⟨by rw [getA_assessOut_risk, hhigh hgps], ?_⟩
    rw [getA_assessOut_risk, hhigh hgps]
    simp

/-! ## Claim C10: tier-4 coordinates satisfy the range checks -/

theorem dmsPairStage_range (text : String) (lat lon : ℚ)
    (h : dmsPairStage text = some (lat, lon)) :
    -90 ≤ lat ∧ lat ≤ 90 ∧ -180 ≤ lon ∧ lon ≤ 180 := by
  unfold dmsPairStage at h
  split at h
  · dsimp only at h
    split at h
    · rename_i hr
      simp only [Option.some.injEq, Prod.mk.injEq] at h
      obtain ⟨ha, hb⟩ := h
      subst ha
      subst hb
      exact hr
    · exact absurd h (by simp)
  · exact absurd h (by simp)

theorem coordsFromString_range (text : String) (lat lon : ℚ)
    (h : extractCoordinatesFromString text = some (lat, lon)) :
    -90 ≤ lat ∧ lat ≤ 90 ∧ -180 ≤ lon ∧ lon ≤ 180 := by
  unfold extractCoordinatesFromString at h
  split at h
  · split at h
    · rename_i hr
      simp only [Option.some.injEq, Prod.mk.injEq] at h
      obtain ⟨ha, hb⟩ := h
      subst ha
      subst hb
      exact hr
    · exact dmsPairStage_range text lat lon h
  · exact dmsPairStage_range text lat lon h

theorem genericGpsLoop_range (l : List (String × Value)) (acc : Meta)
    (hacc : ∀ lat lon : ℚ, getA acc "Latitude" = some (.pyFloat lat) →
      getA acc "Longitude" = some (.pyFloat lon) →
      -90 ≤ lat ∧ lat ≤ 90 ∧ -180 ≤ lon ∧ lon ≤ 180) :
    ∀ lat lon : ℚ, getA (genericGpsLoop l acc) "Latitude" = some (.pyFloat lat) →
      getA (genericGpsLoop l acc) "Longitude" = some (.pyFloat lon) →
      -90 ≤ lat ∧ lat ≤ 90 ∧ -180 ≤ lon ∧ lon ≤ 180 := by
  induction l generalizing acc with
  | nil => exact hacc
  | cons kv rest ih =>
    obtain ⟨k, v⟩ := kv
    intro lat lon h1 h2
    unfold genericGpsLoop at h1 h2
    cases v with
    | pyStr s =>
      dsimp only at h1 h2
      by_cases hbrk : (memKey acc "Latitude" && memKey acc "Longitude") = true
      · rw [if_pos hbrk] at h1 h2
        exact hacc lat lon h1 h2
      · rw [if_neg hbrk] at h1 h2
        by_cases hkey : genericGpsKey k = true
        · rw [if_pos hkey] at h1 h2
          cases hcoords : extractCoordinatesFromString s with
          | some p =>
            obtain ⟨la, lo⟩ := p
            rw [hcoords] at h1 h2
            dsimp only at h1 h2
            have hr := coordsFromString_range s la lo hcoords
            rw [getA_setA_ne _ _ _ _ (by decide), getA_setA_self] at h1
            rw [getA_setA_self] at h2
            obtain rfl : la = lat := by injection h1 with h1; injection h1
            obtain rfl : lo = lon := by injection h2 with h2; injection h2
            exact hr
          | none =>
            rw [hcoords] at h1 h2
            exact ih acc hacc lat lon h1 h2
        · rw [if_neg hkey] at h1 h2
          exact ih acc hacc lat lon h1 h2
    | pyNone => exact ih acc hacc lat lon h1 h2
    | pyBool b => exact ih acc hacc lat lon h1 h2
    | pyInt n => exact ih acc hacc lat lon h1 h2
    | pyFloat q => exact ih acc hacc lat lon h1 h2
    | pyBytes bs => exact ih acc hacc lat lon h1 h2
    | pyFrac a b => exact ih acc hacc lat lon h1 h2
    | pyList vs => exact ih acc hacc lat lon h1 h2
    | pyTuple vs => exact ih acc hacc lat lon h1 h2
    | pyDict kvs => exact ih acc hacc lat lon h1 h2

/-- C10: every coordinate pair produced by the tier-4 generic key scan lies
within −90 ≤ latitude ≤ 90 and −180 ≤ longitude ≤ 180: a regex-matched
decimal or DMS pair outside these ranges is discarded and contributes no
coordinates. -/
theorem tier4_generic_scan_in_range :
    (∀ (text : String) (lat lon : ℚ),
      extractCoordinatesFromString text = some (lat, lon) →
      -90 ≤ lat ∧ lat ≤ 90 ∧ -180 ≤ lon ∧ lon ≤ 180)
    ∧ (∀ (m : Meta) (lat lon : ℚ),
      getA (parseGenericGps m) "Latitude" = some (.pyFloat lat) →
      getA (parseGenericGps m) "Longitude" = some (.pyFloat lon) →
      -90 ≤ lat ∧ lat ≤ 90 ∧ -180 ≤ lon ∧ lon ≤ 180) := by
  refine ⟨coordsFromString_range, fun m lat lon h1 h2 => ?_⟩
  exact genericGpsLoop_range m [] (fun _ _ h _ => by simp [getA] at h) lat lon h1 h2

theorem tier4_generic_scan_in_range_witness :
    extractCoordinatesFromString "1.5, 2.5" = some (3 / 2, 5 / 2)
    ∧ (-90 ≤ (3 / 2 : ℚ) ∧ (3 / 2 : ℚ) ≤ 90 ∧ -180 ≤ (5 / 2 : ℚ) ∧ (5 / 2 : ℚ) ≤ 180)
    ∧ extractCoordinatesFromString "91.5, 2.5" = none := by
  have he : extractCoordinatesFromString "1.5, 2.5" = some (3 / 2, 5 / 2) := by
    simp +decide [extractCoordinatesFromString, searchDecPair, matchDecPairAt, signedDecAt,
      digitRun, digitsVal, isSpaceCh, dmsPairStage, searchDmsPair, matchDmsPairAt,
      dmsCoreAt, digitSplits, firstSome]
    norm_num
  refine ⟨he, tier4_generic_scan_in_range.1 "1.5, 2.5" (3 / 2) (5 / 2) he, ?_⟩
  simp +decide [extractCoordinatesFromString, searchDecPair, matchDecPairAt, signedDecAt,
    digitRun, digitsVal, isSpaceCh, dmsPairStage, searchDmsPair, matchDmsPairAt,
    dmsCoreAt, digitSplits, firstSome, fracSplits, optSplits, isQuoteMin, isQuoteSec,
    isDirNS, isDirEW]
  norm_num

/-! ## Claim C7: device-type classification precedence -/

theorem getA_eq_none_of_not_memKey (m : Meta) (k : String) (h : memKey m k = false) :
    getA m k = none := by
  unfold memKey at h
  cases hg : getA m k with
  | none => rfl
  | some v => rw [hg] at h; simp at h

theorem strHas_empty_hay (sub : String) (h : sub ≠ "") : strHas "" sub = false := by
  show listHasSub sub.data [] = false
  cases hc : sub.data with
  | nil =>
    obtain ⟨l⟩ := sub
    exact absurd (congrArg String.mk hc) h
  | cons c cs => rfl

theorem ne_empty_of_strHas (s sub : String) (hsub : sub ≠ "") (h : strHas s sub = true) :
    s ≠ "" := by
  intro he
  subst he
  rw [strHas_empty_hay sub hsub] at h
  exact absurd h (by simp)

/-- The make (resp. model) lowered for comparison, empty when absent
(`make.lower() if make else ""`). -/
def lowOpt (s : Option String) : String :=
  if optTruthy s then lowerStr (s.getD "") else ""

/-- Modelled from the spec: rule (a), "explicit `DeviceType` key present →
used verbatim". -/
def specRuleExplicit (_make _model : Option String) (m : Meta) : Option Value :=
  getA m "DeviceType"

/-- Modelled from the spec: rules (b)-(i) of the §4.3 device-type precedence
list, in the spec's order. -/
def specDeviceTypeRulesTail : List (Option String → Option String → Meta → Option Value) :=
  [fun make model _ =>
    if smartphoneManufacturers.any (strHas (lowOpt make)) then
      (if tabletIndicators.any (strHas (lowOpt model)) then some (.pyStr "Tablet")
       else some (.pyStr "Smartphone"))
    else none,
   fun make _ _ =>
    if cameraManufacturers.any (strHas (lowOpt make)) then some (.pyStr "Camera") else none,
   fun make _ _ =>
    if droneManufacturers.any (strHas (lowOpt make)) then some (.pyStr "Drone") else none,
   fun make model _ =>
    if actionCameraIndicators.any (fun s => strHas (lowOpt make) s || strHas (lowOpt model) s)
    then some (.pyStr "Action Camera") else none,
   fun _ model _ =>
    if strHas (lowOpt model) "phone" || strHas (lowOpt model) "smartphone" then
      some (.pyStr "Smartphone")
    else if strHas (lowOpt model) "camera" || strHas (lowOpt model) "dslr"
        || strHas (lowOpt model) "mirrorless" then some (.pyStr "Camera")
    else if strHas (lowOpt model) "drone" then some (.pyStr "Drone")
    else none,
   fun _ _ m =>
    if lensIndicatorKeys.any (memKey m) then some (.pyStr "Camera") else none,
   fun _ _ m =>
    if (memKey m "FocalLength" || memKey m "FNumber")
        && (memKey m "ISO" && memKey m "ExposureTime") then some (.pyStr "Camera") else none,
   fun make model _ =>
    if optTruthy make || optTruthy model then some (.pyStr "Digital Camera") else none]

/-- Modelled from the spec: "evaluated in this fixed precedence until one
matches" — the first rule of the §4.3 list that fires wins. -/
def specRulesEval (make model : Option String) (m : Meta) : Option Value :=
  firstSome (specRuleExplicit :: specDeviceTypeRulesTail) fun r => r make model m

/-- The amended rule order: after the explicit `DeviceType` rule, a record
with neither make nor model is classified as absent before any further rule
is consulted (the source's early `return None`); then the remaining rules
fire in the spec's order. -/
def specRulesEvalAmended (make model : Option String) (m : Meta) : Option Value :=
  match specRuleExplicit make model m with
  | some v => some v
  | none =>
    if !optTruthy make && !optTruthy model then none
    else firstSome specDeviceTypeRulesTail fun r => r make model m

/-- C7 counterexample: the classifier does not evaluate the §4.3 rule list as
stated: with no make and no model but a `LensModel` key present, the rule
list's lens rule would give `Camera`, while `_identify_device_type` returns
`None` through its early exit. -/
theorem device_type_rule_order_cex :
    identifyDeviceType none none [("LensModel", Value.pyStr "EF 50mm")] = none
    ∧ specRulesEval none none [("LensModel", Value.pyStr "EF 50mm")]
      = some (.pyStr "Camera") :=
  ⟨rfl, rfl⟩

/-- C7 amended: classification is deterministic and equals the spec's rule
list amended with the early exit (no make and no model → absent right after
the explicit-`DeviceType` rule); in particular, on records without an
explicit `DeviceType` key, make `"Canon"` (whatever the model, e.g. with a
`LensModel` key present) classifies as `Camera` and make `"Apple"` with
model `"iPad Pro"` as `Tablet`. -/
theorem device_type_rules_amended :
    (∀ (make model : Option String) (m : Meta),
      identifyDeviceType make model m = specRulesEvalAmended make model m)
    ∧ (∀ (mdl : Option String) (m : Meta), memKey m "DeviceType" = false →
      identifyDeviceType (some "Canon") mdl m = some (.pyStr "Camera"))
    ∧ (∀ m : Meta, memKey m "DeviceType" = false →
      identifyDeviceType (some "Apple") (some "iPad Pro") m = some (.pyStr "Tablet")) := by
  refine ⟨?_, ?_, ?_⟩
  · intro make model m
    unfold identifyDeviceType specRulesEvalAmended specRuleExplicit
    cases getA m "DeviceType" with
    | some v => rfl
    | none =>
      dsimp only
      by_cases hearly : (!optTruthy make && !optTruthy model) = true
      · rw [if_pos hearly, if_pos hearly]
      · rw [if_neg hearly, if_neg hearly]
        simp only [specDeviceTypeRulesTail, firstSome, lowOpt]
        set mka := (if optTruthy make = true then lowerStr (make.getD "") else "") with hmka
        set mdl := (if optTruthy model = true then lowerStr (model.getD "") else "") with hmdl
        have e5 : (mdl ≠ "" ∧ (strHas mdl "phone" || strHas mdl "smartphone") = true)
            ↔ (strHas mdl "phone" || strHas mdl "smartphone") = true := by
          refine ⟨And.right, fun hc => ⟨?_, hc⟩⟩
          rcases Bool.or_eq_true .. ▸ hc with h | h
          · exact ne_empty_of_strHas mdl "phone" (by decide) h
          · exact ne_empty_of_strHas mdl "smartphone" (by decide) h
        have e6 : (mdl ≠ "" ∧ (strHas mdl "camera" || strHas mdl "dslr"
              || strHas mdl "mirrorless") = true)
            ↔ (strHas mdl "camera" || strHas mdl "dslr" || strHas mdl "mirrorless") = true := by
          refine ⟨And.right, fun hc => ⟨?_, hc⟩⟩
          rcases Bool.or_eq_true .. ▸ hc with h | h
          · rcases Bool.or_eq_true .. ▸ h with h2 | h2
            · exact ne_empty_of_strHas mdl "camera" (by decide) h2
            · exact ne_empty_of_strHas mdl "dslr" (by decide) h2
          · exact ne_empty_of_strHas mdl "mirrorless" (by decide) h
        have e7 : (mdl ≠ "" ∧ strHas mdl "drone" = true) ↔ strHas mdl "drone" = true :=
          ⟨And.right, fun hc => ⟨ne_empty_of_strHas mdl "drone" (by decide) hc, hc⟩⟩
        simp only [e5, e6, e7]
        by_cases c1 : smartphoneManufacturers.any (strHas mka) = true
        · by_cases ct : tabletIndicators.any (strHas mdl) = true
          · simp [c1, ct]
          · simp [c1, ct]
        · by_cases c2 : cameraManufacturers.any (strHas mka) = true
          · simp [c1, c2]
          · by_cases c3 : droneManufacturers.any (strHas mka) = true
            · simp [c1, c2, c3]
            · by_cases c4 : actionCameraIndicators.any
                  (fun s => strHas mka s || strHas mdl s) = true
              · simp [c1, c2, c3, c4]
              · by_cases c5 : (strHas mdl "phone" || strHas mdl "smartphone") = true
                · simp [c1, c2, c3, c4, c5]
                · by_cases c6 : (strHas mdl "camera" || strHas mdl "dslr"
                      || strHas mdl "mirrorless") = true
                  · simp [c1, c2, c3, c4, c5, c6]
                  · by_cases c7 : strHas mdl "drone" = true
                    · simp [c1, c2, c3, c4, c5, c6, c7]
                    · by_cases c8 : lensIndicatorKeys.any (memKey m) = true
                      · simp [c1, c2, c3, c4, c5, c6, c7, c8]
                      · by_cases c9 : ((memKey m "FocalLength" || memKey m "FNumber")
                            && (memKey m "ISO" && memKey m "ExposureTime")) = true
                        · simp [c1, c2, c3, c4, c5, c6, c7, c8, c9]
                        · by_cases c10 : (optTruthy make || optTruthy model) = true
                          · simp [c1, c2, c3, c4, c5, c6, c7, c8, c9, c10]
                          · simp [c1, c2, c3, c4, c5, c6, c7, c8, c9, c10]
  · intro mdl m hdt
    unfold identifyDeviceType
    rw [getA_eq_none_of_not_memKey m "DeviceType" hdt]
    rfl
  · intro m hdt
    unfold identifyDeviceType
    rw [getA_eq_none_of_not_memKey m "DeviceType" hdt]
    rfl

theorem device_type_rules_amended_witness :
    memKey [("LensModel", Value.pyStr "EF")] "DeviceType" = false
    ∧ identifyDeviceType (some "Canon") (some "EOS R5") [("LensModel", Value.pyStr "EF")]
      = some (.pyStr "Camera")
    ∧ identifyDeviceType (some "Apple") (some "iPad Pro") [] = some (.pyStr "Tablet") :=
  ⟨rfl,
    device_type_rules_amended.2.1 (some "EOS R5") [("LensModel", Value.pyStr "EF")] rfl,
    device_type_rules_amended.2.2 [] rfl⟩

/-! ## Claim C6: DMS round trip -/

theorem natDigitsAux_fuel (n : ℕ) : ∀ fuel1 fuel2 acc, n < fuel1 → n < fuel2 →
    natDigitsAux fuel1 n acc = natDigitsAux fuel2 n acc := by
  induction n using Nat.strong_induction_on with
  | _ n ih =>
    intro fuel1 fuel2 acc h1 h2
    obtain ⟨f1, rfl⟩ : ∃ f1, fuel1 = f1 + 1 := ⟨fuel1 - 1, by omega⟩
    obtain ⟨f2, rfl⟩ : ∃ f2, fuel2 = f2 + 1 := ⟨fuel2 - 1, by omega⟩
    by_cases hn : n < 10
    · simp [natDigitsAux, hn]
    · simp only [natDigitsAux, if_neg hn]
      exact ih (n / 10) (by omega) f1 f2 _ (by omega) (by omega)

theorem natDigits_lt10 (n : ℕ) (hn : n < 10) : natDigits n = [Char.ofNat (48 + n)] := by
  simp [natDigits, natDigitsAux, hn]

theorem natDigitsAux_acc (n : ℕ) : ∀ acc, natDigitsAux (n + 1) n acc = natDigits n ++ acc := by
  induction n using Nat.strong_induction_on with
  | _ n ih =>
    intro acc
    by_cases hn : n < 10
    · simp [natDigits, natDigitsAux, hn]
    · have l1 : ∀ ac, natDigitsAux (n + 1) n ac
          = natDigits (n / 10) ++ Char.ofNat (48 + n % 10) :: ac := by
        intro ac
        have e1 : natDigitsAux (n + 1) n ac
            = natDigitsAux n (n / 10) (Char.ofNat (48 + n % 10) :: ac) := by
          simp [natDigitsAux, hn]
        rw [e1, natDigitsAux_fuel (n / 10) n (n / 10 + 1) _ (by omega) (by omega),
          ih (n / 10) (by omega)]
      rw [l1 acc, show natDigits n = natDigitsAux (n + 1) n [] from rfl, l1 []]
      simp

theorem natDigits_step (n : ℕ) (hn : ¬ n < 10) :
    natDigits n = natDigits (n / 10) ++ [Char.ofNat (48 + n % 10)] := by
  have e1 : natDigits n = natDigitsAux n (n / 10) [Char.ofNat (48 + n % 10)] := by
    simp [natDigits, natDigitsAux, hn]
  rw [e1, natDigitsAux_fuel (n / 10) n (n / 10 + 1) _ (by omega) (by omega),
    natDigitsAux_acc (n / 10)]

theorem digitChar_isDigit (k : ℕ) (h : k < 10) : (Char.ofNat (48 + k)).isDigit = true := by
  interval_cases k <;> decide

theorem digitChar_toNat (k : ℕ) (h : k < 10) : (Char.ofNat (48 + k)).toNat = 48 + k := by
  interval_cases k <;> decide

theorem natDigits_digits (n : ℕ) : ∀ c ∈ natDigits n, c.isDigit = true := by
  induction n using Nat.strong_induction_on with
  | _ n ih =>
    by_cases hn : n < 10
    · rw [natDigits_lt10 n hn]
      intro c hc
      simp only [List.mem_singleton] at hc
      subst hc
      exact digitChar_isDigit n hn
    · rw [natDigits_step n hn]
      intro c hc
      rcases List.mem_append.mp hc with h1 | h1
      · exact ih (n / 10) (by omega) c h1
      · simp only [List.mem_singleton] at h1
        subst h1
        exact digitChar_isDigit (n % 10) (by omega)

theorem natDigits_ne_nil (n : ℕ) : natDigits n ≠ [] := by
  by_cases hn : n < 10
  · rw [natDigits_lt10 n hn]; simp
  · rw [natDigits_step n hn]; simp

theorem digitsVal_append_singleton (cs : List Char) (c : Char) :
    digitsVal (cs ++ [c]) = 10 * digitsVal cs + (c.toNat - 48) := by
  simp [digitsVal, List.foldl_append]

theorem digitsVal_natDigits (n : ℕ) : digitsVal (natDigits n) = n := by
  induction n using Nat.strong_induction_on with
  | _ n ih =>
    by_cases hn : n < 10
    · rw [natDigits_lt10 n hn]
      simp only [digitsVal, List.foldl_cons, List.foldl_nil, digitChar_toNat n hn]
      omega
    · rw [natDigits_step n hn, digitsVal_append_singleton, ih (n / 10) (by omega),
        digitChar_toNat (n % 10) (by omega)]
      omega

theorem natDigits_length_lt10 (n : ℕ) (hn : n < 10) : (natDigits n).length = 1 := by
  rw [natDigits_lt10 n hn]; rfl

theorem natDigits_length_le2 (n : ℕ) (h : n < 100) : (natDigits n).length ≤ 2 := by
  by_cases hn : n < 10
  · rw [natDigits_lt10 n hn]; simp
  · rw [natDigits_step n hn]
    simp [natDigits_length_lt10 (n / 10) (by omega)]

theorem digitsVal_padZeros (k : ℕ) (cs : List Char) :
    digitsVal (padZeros k cs) = digitsVal cs := by
  unfold padZeros
  generalize k - cs.length = j
  induction j with
  | zero => simp
  | succ j ihj =>
    rw [List.replicate_succ, List.cons_append]
    show List.foldl (fun a c => 10 * a + (c.toNat - 48)) 0
      ('0' :: (List.replicate j '0' ++ cs)) = digitsVal cs
    rw [List.foldl_cons]
    have h0 : 10 * 0 + ('0'.toNat - 48) = 0 := by decide
    rw [h0]
    exact ihj

theorem padZeros_length (k : ℕ) (cs : List Char) (h : cs.length ≤ k) :
    (padZeros k cs).length = k := by
  simp [padZeros]
  omega

theorem padZeros_digits (k : ℕ) (cs : List Char) (h : ∀ c ∈ cs, c.isDigit = true) :
    ∀ c ∈ padZeros k cs, c.isDigit = true := by
  intro c hc
  unfold padZeros at hc
  rcases List.mem_append.mp hc with h1 | h1
  · rw [List.eq_of_mem_replicate h1]
    decide
  · exact h c h1

theorem takeWhile_digits_append (ds r : List Char) (h1 : ∀ c ∈ ds, c.isDigit = true)
    (h2 : headNonDigit r = true) :
    (ds ++ r).takeWhile Char.isDigit = ds ∧ (ds ++ r).dropWhile Char.isDigit = r := by
  induction ds with
  | nil =>
    cases r with
    | nil => exact ⟨rfl, rfl⟩
    | cons c t =>
      simp only [headNonDigit, Bool.not_eq_eq_eq_not, Bool.not_true] at h2
      simp [List.takeWhile, List.dropWhile, h2]
  | cons c t ih =>
    have hc := h1 c (List.mem_cons_self c t)
    have iht := ih fun x hx => h1 x (List.mem_cons_of_mem c hx)
    simp [List.takeWhile, List.dropWhile, hc, iht.1, iht.2]

theorem digit_not_space (c : Char) (h : c.isDigit = true) : isSpaceCh c = false := by
  cases hx : isSpaceCh c
  · rfl
  · simp only [isSpaceCh, Bool.or_eq_true, beq_iff_eq] at hx
    rcases hx with ((((h1 | h1) | h1) | h1) | h1) | h1 <;> subst h1 <;>
      exact absurd h (by decide)

theorem dropWhile_space_digits (ds r : List Char) (h1 : ∀ c ∈ ds, c.isDigit = true)
    (hne : ds ≠ []) : (ds ++ r).dropWhile isSpaceCh = ds ++ r := by
  cases ds with
  | nil => exact absurd rfl hne
  | cons c t =>
    have hc := digit_not_space c (h1 c (List.mem_cons_self c t))
    simp [List.dropWhile, hc]

theorem firstSome_cons_some {α β : Type} (x : α) (l : List α) (f : α → Option β) (b : β)
    (h : f x = some b) : firstSome (x :: l) f = some b := by
  simp [firstSome, h]

theorem firstSome_digitSplits {α : Type} (ds r : List Char)
    (f : List Char × List Char → Option α)
    (h1 : ∀ c ∈ ds, c.isDigit = true) (hne : ds ≠ []) (h2 : headNonDigit r = true)
    (out : α) (hf : f (ds, r) = some out) :
    firstSome (digitSplits (ds ++ r)) f = some out := by
  obtain ⟨ht, hd⟩ := takeWhile_digits_append ds r h1 h2
  unfold digitSplits
  dsimp only
  rw [ht, hd]
  obtain ⟨L, hL⟩ : ∃ L, ds.length = L + 1 := by
    cases ds with
    | nil => exact absurd rfl hne
    | cons c t => exact ⟨t.length, rfl⟩
  rw [hL, List.range_succ_eq_map, List.map_cons]
  refine firstSome_cons_some _ _ _ _ ?_
  have e1 : ds.take (L + 1 - 0) = ds := by
    rw [Nat.sub_zero, ← hL, List.take_length]
  have e2 : ds.drop (L + 1 - 0) = [] := by
    rw [Nat.sub_zero, ← hL, List.drop_length]
  rw [e1, e2, List.nil_append]
  exact hf

theorem fracSplits_dot (nd r2 : List Char) (h1 : ∀ c ∈ nd, c.isDigit = true)
    (hlen : nd.length = 2) (h2 : headNonDigit r2 = true) :
    fracSplits ('.' :: (nd ++ r2))
      = [((digitsVal nd : ℚ) / 10 ^ (2 : ℕ), r2), (0, '.' :: (nd ++ r2))] := by
  obtain ⟨ht, hd⟩ := takeWhile_digits_append nd r2 h1 h2
  have hne : nd.isEmpty = false := by
    cases nd with
    | nil => simp at hlen
    | cons c t => rfl
  unfold fracSplits
  dsimp only
  rw [if_pos rfl, ht, hd, hne, hlen]
  simp

theorem dropWhile_space_cons_digits (ds r : List Char) (h1 : ∀ c ∈ ds, c.isDigit = true)
    (hne : ds ≠ []) : (' ' :: (ds ++ r)).dropWhile isSpaceCh = ds ++ r := by
  show (ds ++ r).dropWhile isSpaceCh = ds ++ r
  exact dropWhile_space_digits ds r h1 hne

theorem optSplits_pos (p : Char → Bool) (c : Char) (r : List Char) (h : p c = true) :
    optSplits p (c :: r) = [r, c :: r] := by
  simp [optSplits, h]

theorem matchDmsAt_render (d m s2 : ℕ) (dirC : Char)
    (hdir : dirC = 'N' ∨ dirC = 'S' ∨ dirC = 'E' ∨ dirC = 'W') :
    matchDmsAt (natDigits d ++ ('°' :: ' ' :: (natDigits m ++ ('\'' :: ' ' ::
      (natDigits (s2 / 100) ++ ('.' :: (padZeros 2 (natDigits (s2 % 100))
        ++ ('"' :: ' ' :: [dirC]))))))))
      = some (d, m, (s2 : ℚ) / 100, dirC) := by
  have hspace : isSpaceCh dirC = false := by
    rcases hdir with rfl | rfl | rfl | rfl <;> decide
  have hdirT : isDirNSEW dirC = true := by
    rcases hdir with rfl | rfl | rfl | rfl <;> decide
  have h100 : ((s2 / 100 : ℕ) : ℚ) + ((s2 % 100 : ℕ) : ℚ) / 10 ^ (2 : ℕ) = (s2 : ℚ) / 100 := by
    have hdm : 100 * ((s2 / 100 : ℕ) : ℚ) + ((s2 % 100 : ℕ) : ℚ) = (s2 : ℚ) := by
      exact_mod_cast Nat.div_add_mod s2 100
    rw [show ((10 : ℚ) ^ (2 : ℕ)) = 100 by norm_num]
    field_simp
    linarith
  have hplen : (padZeros 2 (natDigits (s2 % 100))).length = 2 :=
    padZeros_length 2 _ (natDigits_length_le2 _ (by omega))
  unfold matchDmsAt dmsCoreAt
  refine firstSome_digitSplits _ _ _ (natDigits_digits d) (natDigits_ne_nil d) ?_ _ ?_
  · rfl
  dsimp only
  rw [if_pos rfl, dropWhile_space_cons_digits (natDigits m) _
    (natDigits_digits m) (natDigits_ne_nil m)]
  refine firstSome_digitSplits _ _ _ (natDigits_digits m) (natDigits_ne_nil m) ?_ _ ?_
  · rfl
  dsimp only
  rw [optSplits_pos isQuoteMin '\'' _ rfl]
  refine firstSome_cons_some _ _ _ _ ?_
  dsimp only
  rw [dropWhile_space_cons_digits (natDigits (s2 / 100)) _
    (natDigits_digits _) (natDigits_ne_nil _)]
  refine firstSome_digitSplits _ _ _ (natDigits_digits (s2 / 100))
    (natDigits_ne_nil (s2 / 100)) ?_ _ ?_
  · rfl
  dsimp only
  rw [fracSplits_dot _ ('"' :: ' ' :: [dirC])
    (padZeros_digits _ _ (natDigits_digits _)) hplen rfl]
  refine firstSome_cons_some _ _ _ _ ?_
  dsimp only
  rw [optSplits_pos isQuoteSec '"' _ rfl]
  refine firstSome_cons_some _ _ _ _ ?_
  dsimp only
  have hdw : (' ' :: [dirC]).dropWhile isSpaceCh = [dirC] := by
    show List.dropWhile isSpaceCh [dirC] = [dirC]
    simp [List.dropWhile, hspace]
  rw [hdw]
  dsimp only
  rw [if_pos hdirT]
  simp only [digitsVal_padZeros, digitsVal_natDigits]
  rw [h100]

theorem searchDms_of_match (cs : List Char) (r : ℕ × ℕ × ℚ × Char) (hne : cs ≠ [])
    (h : matchDmsAt cs = some r) : searchDms cs = some r := by
  cases cs with
  | nil => exact absurd rfl hne
  | cons c t => simp [searchDms, h]

theorem strData_append (a b : String) : (a ++ b).data = a.data ++ b.data := rfl

theorem renderDMS_data (d m s2 : ℕ) (dirC : Char) :
    (renderDMS d m s2 dirC).data
      = natDigits d ++ ('°' :: ' ' :: (natDigits m ++ ('\'' :: ' ' ::
        (natDigits (s2 / 100) ++ ('.' :: (padZeros 2 (natDigits (s2 % 100))
          ++ ('"' :: ' ' :: [dirC]))))))) := by
  have hq : ¬ ((s2 : ℚ) / 100 < 0) := not_lt.mpr (by positivity)
  have harg : (s2 : ℚ) / 100 * 10 ^ (2 : ℕ) + 1 / 2 = (s2 : ℚ) + 1 / 2 := by ring
  have hfl : ⌊(s2 : ℚ) + 1 / 2⌋ = (s2 : ℤ) := by
    rw [Int.floor_eq_iff]
    constructor
    · push_cast; linarith
    · push_cast; linarith
  unfold renderDMS fmtFixed
  rw [if_neg hq, harg, hfl, show ((s2 : ℤ)).toNat = s2 from by omega]
  unfold fmtFixedNat
  rw [if_neg (by norm_num : ¬ (2 : ℕ) = 0), show (10 : ℕ) ^ (2 : ℕ) = 100 from by norm_num]
  have d1 : ("° " : String).data = ['°', ' '] := rfl
  have d2 : ("' " : String).data = ['\'', ' '] := rfl
  have d3 : ("\" " : String).data = ['"', ' '] := rfl
  simp [strData_append, natStr, d1, d2, d3, List.append_assoc]

theorem floor_add_fracQ (a : ℕ) (x : ℚ) (h0 : 0 ≤ x) (h1 : x < 1) :
    ⌊(a : ℚ) + x⌋ = (a : ℤ) := by
  rw [Int.floor_eq_iff]
  constructor
  · push_cast; linarith
  · push_cast; linarith

theorem intStr_natCast (n : ℕ) : intStr (n : ℤ) = natStr n := by
  unfold intStr
  rw [if_neg (by omega : ¬ ((n : ℤ) < 0)), show ((n : ℤ)).toNat = n from by omega]

/-- C6: round trip of the DMS conversions on well-formed DMS data — `d`
degrees, `m < 60` minutes, `s2 < 6000` hundredths of seconds, a direction
letter matching the axis (with a nonzero value for the southern and western
directions, whose sign would otherwise be lost): `dms_to_decimal` parses the
rendered string exactly to the signed decimal value, and `decimal_to_dms`
renders that value back to the identical string. -/
theorem dms_round_trip (d m s2 : ℕ) (dirC : Char) (axis : String)
    (hm : m < 60) (hs : s2 < 6000)
    (haxis : (axis = "lat" ∧ (dirC = 'N' ∨ dirC = 'S'))
      ∨ (axis = "lon" ∧ (dirC = 'E' ∨ dirC = 'W')))
    (hsw : (dirC = 'S' ∨ dirC = 'W') → 0 < d ∨ 0 < m ∨ 0 < s2) :
    dmsToDecimal (renderDMS d m s2 dirC)
      = some (if dirC = 'S' ∨ dirC = 'W' then -dmsVal d m s2 else dmsVal d m s2)
    ∧ decimalToDms (if dirC = 'S' ∨ dirC = 'W' then -dmsVal d m s2 else dmsVal d m s2) axis
      = renderDMS d m s2 dirC := by
  have hdir4 : dirC = 'N' ∨ dirC = 'S' ∨ dirC = 'E' ∨ dirC = 'W' := by
    rcases haxis with ⟨_, h⟩ | ⟨_, h⟩ <;> rcases h with h | h <;> simp [h]
  have hm' : (m : ℚ) ≤ 59 := by exact_mod_cast (show m ≤ 59 by omega)
  have hs' : (s2 : ℚ) ≤ 5999 := by exact_mod_cast (show s2 ≤ 5999 by omega)
  have hge0 : dmsVal d m s2 ≥ 0 := by unfold dmsVal; positivity
  have hfl1 : ⌊dmsVal d m s2⌋ = (d : ℤ) := by
    rw [show dmsVal d m s2 = (d : ℚ) + ((m : ℚ) / 60 + ((s2 : ℚ) / 100) / 3600) from by
      unfold dmsVal; ring]
    exact floor_add_fracQ d _ (by positivity) (by linarith)
  have hmf : (dmsVal d m s2 - ((d : ℤ) : ℚ)) * 60 = (m : ℚ) + (s2 : ℚ) / 6000 := by
    unfold dmsVal; push_cast; ring
  have hfl2 : ⌊(m : ℚ) + (s2 : ℚ) / 6000⌋ = (m : ℤ) :=
    floor_add_fracQ m _ (by positivity) (by linarith)
  have hsec : ((m : ℚ) + (s2 : ℚ) / 6000 - ((m : ℤ) : ℚ)) * 60 = (s2 : ℚ) / 100 := by
    push_cast; ring
  have hsearch : searchDms (renderDMS d m s2 dirC).data = some (d, m, (s2 : ℚ) / 100, dirC) := by
    rw [renderDMS_data]
    refine searchDms_of_match _ _ (fun hnil => natDigits_ne_nil d ?_)
      (matchDmsAt_render d m s2 dirC hdir4)
    exact (List.append_eq_nil.mp hnil).1
  have hv : (dirC = 'S' ∨ dirC = 'W') → 0 < dmsVal d m s2 := by
    intro hc
    have t0 : (0 : ℚ) ≤ (d : ℚ) := by positivity
    have t1 : (0 : ℚ) ≤ (m : ℚ) / 60 := by positivity
    have t2 : (0 : ℚ) ≤ ((s2 : ℚ) / 100) / 3600 := by positivity
    unfold dmsVal
    rcases hsw hc with h1 | h1 | h1
    · have : (1 : ℚ) ≤ (d : ℚ) := by exact_mod_cast h1
      linarith
    · have : (1 : ℚ) ≤ (m : ℚ) := by exact_mod_cast h1
      linarith
    · have : (1 : ℚ) ≤ (s2 : ℚ) := by exact_mod_cast h1
      linarith
  constructor
  · unfold dmsToDecimal
    rw [hsearch]
    rfl
  · rcases haxis with ⟨rfl, hd2⟩ | ⟨rfl, hd2⟩ <;> rcases hd2 with rfl | rfl
    · rw [if_neg (by decide : ¬ ('N' = 'S' ∨ 'N' = 'W'))]
      unfold decimalToDms
      dsimp only
      rw [if_pos (show lowerStr "lat" = "lat" from rfl), if_pos hge0,
        abs_of_nonneg hge0, hfl1, hmf, hfl2, hsec, intStr_natCast, intStr_natCast]
      rfl
    · rw [if_pos (by decide : ('S' = 'S' ∨ 'S' = 'W'))]
      have hv' := hv (Or.inl rfl)
      unfold decimalToDms
      dsimp only
      rw [if_pos (show lowerStr "lat" = "lat" from rfl),
        if_neg (show ¬ (-dmsVal d m s2 ≥ 0) from fun hcon =>
          absurd (neg_nonneg.mp hcon) (not_le.mpr hv')),
        abs_neg, abs_of_nonneg hge0, hfl1, hmf, hfl2, hsec, intStr_natCast, intStr_natCast]
      rfl
    · rw [if_neg (by decide : ¬ ('E' = 'S' ∨ 'E' = 'W'))]
      unfold decimalToDms
      dsimp only
      rw [if_neg (by decide : ¬ (lowerStr "lon" = "lat")), if_pos hge0,
        abs_of_nonneg hge0, hfl1, hmf, hfl2, hsec, intStr_natCast, intStr_natCast]
      rfl
    · rw [if_pos (by decide : ('W' = 'S' ∨ 'W' = 'W'))]
      have hv' := hv (Or.inr rfl)
      unfold decimalToDms
      dsimp only
      rw [if_neg (by decide : ¬ (lowerStr "lon" = "lat")),
        if_neg (show ¬ (-dmsVal d m s2 ≥ 0) from fun hcon =>
          absurd (neg_nonneg.mp hcon) (not_le.mpr hv')),
        abs_neg, abs_of_nonneg hge0, hfl1, hmf, hfl2, hsec, intStr_natCast, intStr_natCast]
      rfl

theorem dms_round_trip_witness :
    dmsToDecimal (renderDMS 40 26 4600 'N') = some (dmsVal 40 26 4600)
    ∧ decimalToDms (dmsVal 40 26 4600) "lat" = renderDMS 40 26 4600 'N' := by
  have h := dms_round_trip 40 26 4600 'N' "lat" (by decide) (by decide)
    (Or.inl ⟨rfl, Or.inl rfl⟩) (fun hc => Or.inl (by decide))
  rw [if_neg (by decide : ¬ ('N' = 'S' ∨ 'N' = 'W'))] at h
  exact h

/-! ## Claim C1: GPS tier priority -/

theorem getA_restrictP_mem (m : Meta) (keys : List String) (k : String) (hk : k ∈ keys) :
    getA (restrictP m keys) k = getA m k := by
  induction m with
  | nil => rfl
  | cons kv rest ih =>
    obtain ⟨k', v⟩ := kv
    simp only [restrictP, List.filter_cons] at ih ⊢
    by_cases hc : k' ∈ keys
    · by_cases he : k' = k
      · subst he
        simp [getA, hc]
      · simp [getA, hc, he, ih]
    · have he : k' ≠ k := fun h => hc (h ▸ hk)
      simp [getA, hc, he, ih]

theorem extractGpsCoordinate_congr (m1 m2 : Meta) (keys : List String)
    (h : ∀ k ∈ keys, getA m1 k = getA m2 k) :
    extractGpsCoordinate m1 keys = extractGpsCoordinate m2 keys := by
  induction keys with
  | nil => rfl
  | cons key rest ih =>
    have hk := h key (List.mem_cons_self key rest)
    have ih2 := ih fun k hx => h k (List.mem_cons_of_mem key hx)
    simp only [extractGpsCoordinate, hk, ih2]

theorem extractGpsRef_congr (m1 m2 : Meta) (keys : List String) (dflt : String)
    (h : ∀ k ∈ keys, getA m1 k = getA m2 k) :
    extractGpsRef m1 keys dflt = extractGpsRef m2 keys dflt := by
  induction keys with
  | nil => rfl
  | cons key rest ih =>
    have hk := h key (List.mem_cons_self key rest)
    have ih2 := ih fun k hx => h k (List.mem_cons_of_mem key hx)
    simp only [extractGpsRef, hk, ih2]

theorem extractAltValue_congr (m1 m2 : Meta) (keys : List String)
    (h : ∀ k ∈ keys, getA m1 k = getA m2 k) :
    extractAltValue m1 keys = extractAltValue m2 keys := by
  induction keys with
  | nil => rfl
  | cons key rest ih =>
    have hk := h key (List.mem_cons_self key rest)
    have ih2 := ih fun k hx => h k (List.mem_cons_of_mem key hx)
    simp only [extractAltValue, hk, ih2]

theorem extractAltRef_congr (m1 m2 : Meta) (keys : List String)
    (h : ∀ k ∈ keys, getA m1 k = getA m2 k) :
    extractAltRef m1 keys = extractAltRef m2 keys := by
  induction keys with
  | nil => rfl
  | cons key rest ih =>
    have hk := h key (List.mem_cons_self key rest)
    have ih2 := ih fun k hx => h k (List.mem_cons_of_mem key hx)
    simp only [extractAltRef, hk, ih2]

theorem extractGpsTimeStamp_congr (m1 m2 : Meta) (keys : List String)
    (h : ∀ k ∈ keys, getA m1 k = getA m2 k) :
    extractGpsTimeStamp m1 keys = extractGpsTimeStamp m2 keys := by
  induction keys with
  | nil => rfl
  | cons key rest ih =>
    have hk := h key (List.mem_cons_self key rest)
    have ih2 := ih fun k hx => h k (List.mem_cons_of_mem key hx)
    simp only [extractGpsTimeStamp, hk, ih2]

theorem extractGpsNumeric_congr (m1 m2 : Meta) (keys : List String)
    (h : ∀ k ∈ keys, getA m1 k = getA m2 k) :
    extractGpsNumeric m1 keys = extractGpsNumeric m2 keys := by
  induction keys with
  | nil => rfl
  | cons key rest ih =>
    have hk := h key (List.mem_cons_self key rest)
    have ih2 := ih fun k hx => h k (List.mem_cons_of_mem key hx)
    simp only [extractGpsNumeric, hk, ih2]

theorem extractGpsSpeedRef_congr (m1 m2 : Meta) (keys : List String)
    (h : ∀ k ∈ keys, getA m1 k = getA m2 k) :
    extractGpsSpeedRef m1 keys = extractGpsSpeedRef m2 keys := by
  induction keys with
  | nil => rfl
  | cons key rest ih =>
    have hk := h key (List.mem_cons_self key rest)
    have ih2 := ih fun k hx => h k (List.mem_cons_of_mem key hx)
    simp only [extractGpsSpeedRef, hk, ih2]

theorem extractXmpAltitude_congr (m1 m2 : Meta) (keys : List String)
    (h : ∀ k ∈ keys, getA m1 k = getA m2 k) :
    extractXmpAltitude m1 keys = extractXmpAltitude m2 keys := by
  induction keys with
  | nil => rfl
  | cons key rest ih =>
    have hk := h key (List.mem_cons_self key rest)
    have ih2 := ih fun k hx => h k (List.mem_cons_of_mem key hx)
    simp only [extractXmpAltitude, hk, ih2]

theorem firstSome_congr {α β : Type} (l : List α) (f g : α → Option β)
    (h : ∀ x ∈ l, f x = g x) : firstSome l f = firstSome l g := by
  induction l with
  | nil => rfl
  | cons x rest ih =>
    have hx := h x (List.mem_cons_self x rest)
    have ih2 := ih fun y hy => h y (List.mem_cons_of_mem x hy)
    simp only [firstSome, hx, ih2]

theorem extractGpsAltitude_congr (m1 m2 : Meta)
    (hv : ∀ k ∈ gpsAltitudeKeys, getA m1 k = getA m2 k)
    (hr : ∀ k ∈ gpsAltitudeRefKeys, getA m1 k = getA m2 k) :
    extractGpsAltitude m1 = extractGpsAltitude m2 := by
  simp only [extractGpsAltitude, extractAltValue_congr m1 m2 gpsAltitudeKeys hv,
    extractAltRef_congr m1 m2 gpsAltitudeRefKeys hr]

theorem extractAdditionalGpsInfo_congr (m1 m2 : Meta)
    (h : ∀ k ∈ tier1Keys, getA m1 k = getA m2 k) (g : Meta) :
    extractAdditionalGpsInfo m1 g = extractAdditionalGpsInfo m2 g := by
  have hts : ∀ k ∈ gpsTimeStampKeys, getA m1 k = getA m2 k :=
    fun k hk => h k (by simp [tier1Keys, hk])
  have hds0 : ∀ k ∈ gpsDateStampKeys, getA m1 k = getA m2 k :=
    fun k hk => h k (by simp [tier1Keys, hk])
  have hdir : ∀ k ∈ gpsImgDirectionKeys, getA m1 k = getA m2 k :=
    fun k hk => h k (by simp [tier1Keys, hk])
  have hspd : ∀ k ∈ gpsSpeedKeys, getA m1 k = getA m2 k :=
    fun k hk => h k (by simp [tier1Keys, hk])
  have hsr : ∀ k ∈ gpsSpeedRefKeys, getA m1 k = getA m2 k :=
    fun k hk => h k (by simp [tier1Keys, hk])
  have hds : (firstSome gpsDateStampKeys fun k =>
      match getA m1 k with
      | some (.pyStr s) => some s
      | _ => none) = firstSome gpsDateStampKeys fun k =>
      match getA m2 k with
      | some (.pyStr s) => some s
      | _ => none :=
    firstSome_congr gpsDateStampKeys _ _ fun k hk => by rw [hds0 k hk]
  simp only [extractAdditionalGpsInfo,
    extractGpsTimeStamp_congr m1 m2 gpsTimeStampKeys hts, hds,
    extractGpsNumeric_congr m1 m2 gpsImgDirectionKeys hdir,
    extractGpsNumeric_congr m1 m2 gpsSpeedKeys hspd,
    extractGpsSpeedRef_congr m1 m2 gpsSpeedRefKeys hsr]

theorem parseExifGps_congr (m1 m2 : Meta)
    (h : ∀ k ∈ tier1Keys, getA m1 k = getA m2 k) :
    parseExifGps m1 = parseExifGps m2 := by
  have hla : ∀ k ∈ exifLatKeys, getA m1 k = getA m2 k :=
    fun k hk => h k (by simp [tier1Keys, hk])
  have hlo : ∀ k ∈ exifLonKeys, getA m1 k = getA m2 k :=
    fun k hk => h k (by simp [tier1Keys, hk])
  have hlaR : ∀ k ∈ exifLatRefKeys, getA m1 k = getA m2 k :=
    fun k hk => h k (by simp [tier1Keys, hk])
  have hloR : ∀ k ∈ exifLonRefKeys, getA m1 k = getA m2 k :=
    fun k hk => h k (by simp [tier1Keys, hk])
  have halt : ∀ k ∈ gpsAltitudeKeys, getA m1 k = getA m2 k :=
    fun k hk => h k (by simp [tier1Keys, hk])
  have haltR : ∀ k ∈ gpsAltitudeRefKeys, getA m1 k = getA m2 k :=
    fun k hk => h k (by simp [tier1Keys, hk])
  simp only [parseExifGps,
    extractGpsCoordinate_congr m1 m2 exifLatKeys hla,
    extractGpsCoordinate_congr m1 m2 exifLonKeys hlo,
    extractGpsRef_congr m1 m2 exifLatRefKeys "N" hlaR,
    extractGpsRef_congr m1 m2 exifLonRefKeys "E" hloR,
    extractGpsAltitude_congr m1 m2 halt haltR,
    extractAdditionalGpsInfo_congr m1 m2 h]

theorem parseXmpGps_congr (m1 m2 : Meta)
    (h : ∀ k ∈ tier2Keys, getA m1 k = getA m2 k) :
    parseXmpGps m1 = parseXmpGps m2 := by
  have hla : ∀ k ∈ xmpLatKeys, getA m1 k = getA m2 k :=
    fun k hk => h k (by simp [tier2Keys, hk])
  have hlo : ∀ k ∈ xmpLonKeys, getA m1 k = getA m2 k :=
    fun k hk => h k (by simp [tier2Keys, hk])
  have halt : ∀ k ∈ xmpAltKeys, getA m1 k = getA m2 k :=
    fun k hk => h k (by simp [tier2Keys, hk])
  simp only [parseXmpGps,
    extractGpsCoordinate_congr m1 m2 xmpLatKeys hla,
    extractGpsCoordinate_congr m1 m2 xmpLonKeys hlo,
    extractXmpAltitude_congr m1 m2 xmpAltKeys halt]

theorem parseIptcLocation_congr (m1 m2 : Meta)
    (h : ∀ k ∈ tier3Keys, getA m1 k = getA m2 k) :
    parseIptcLocation m1 = parseIptcLocation m2 := by
  have hgt : ∀ k ∈ tier3Keys, getTruthy m1 k = getTruthy m2 k :=
    fun k hk => by unfold getTruthy; rw [h k hk]
  have hsub : firstSome ["IPTC:Sub-location", "IPTC:Sublocation"] (getTruthy m1)
      = firstSome ["IPTC:Sub-location", "IPTC:Sublocation"] (getTruthy m2) :=
    firstSome_congr _ _ _ fun k hk => hgt k (by fin_cases hk <;> decide)
  have hst : firstSome ["IPTC:Province-State", "IPTC:State", "IPTC:Province"] (getTruthy m1)
      = firstSome ["IPTC:Province-State", "IPTC:State", "IPTC:Province"] (getTruthy m2) :=
    firstSome_congr _ _ _ fun k hk => hgt k (by fin_cases hk <;> decide)
  have hcity := hgt "IPTC:City" (by simp [tier3Keys])
  have hctry := hgt "IPTC:Country" (by simp [tier3Keys])
  simp only [parseIptcLocation, hsub, hst, hcity, hctry]

/-- C1: the four GPS detection tiers are tried in strict order and the first
tier with any matching key wins: when tier k matches, the dispatch result is
exactly tier k's parser output, and that output only depends on the record's
restriction to tier k's own key set (so no value read by a later tier can
appear in it), even when the winning tier yields no coordinates; the overall
parse then enriches exactly the dispatched tier's output. -/
theorem gps_tier_priority (m : Meta) :
    (hasExifGpsTags m = true →
      detectGps m = .ok (parseExifGps m)
      ∧ parseExifGps m = parseExifGps (restrictP m tier1Keys))
    ∧ (hasExifGpsTags m = false → hasXmpGpsTags m = true →
      detectGps m = .ok (parseXmpGps m)
      ∧ parseXmpGps m = parseXmpGps (restrictP m tier2Keys))
    ∧ (hasExifGpsTags m = false → hasXmpGpsTags m = false → hasIptcLocationTags m = true →
      detectGps m = parseIptcLocation m
      ∧ parseIptcLocation m = parseIptcLocation (restrictP m tier3Keys))
    ∧ (hasExifGpsTags m = false → hasXmpGpsTags m = false → hasIptcLocationTags m = false →
      detectGps m = .ok (parseGenericGps m))
    ∧ (∀ fs env st, parseGpsInfo fs env st m =
        match detectGps m with
        | .error _ => ([], st)
        | .ok g => enrichGps fs env st g) := by
  refine ⟨?_, ?_, ?_, ?_, fun fs env st => rfl⟩
  · intro h1
    exact ⟨by simp [detectGps, h1],
      parseExifGps_congr m (restrictP m tier1Keys)
        fun k hk => (getA_restrictP_mem m tier1Keys k hk).symm⟩
  · intro h1 h2
    exact ⟨by simp [detectGps, h1, h2],
      parseXmpGps_congr m (restrictP m tier2Keys)
        fun k hk => (getA_restrictP_mem m tier2Keys k hk).symm⟩
  · intro h1 h2 h3
    exact ⟨by simp [detectGps, h1, h2, h3],
      parseIptcLocation_congr m (restrictP m tier3Keys)
        fun k hk => (getA_restrictP_mem m tier3Keys k hk).symm⟩
  · intro h1 h2 h3
    simp [detectGps, h1, h2, h3]

theorem gps_tier_priority_witness :
    hasExifGpsTags [("GPS:Latitude", Value.pyStr "x"), ("XMP:GPSLatitude", Value.pyStr "1.0")]
      = true
    ∧ detectGps [("GPS:Latitude", Value.pyStr "x"), ("XMP:GPSLatitude", Value.pyStr "1.0")]
        = .ok (parseExifGps [("GPS:Latitude", Value.pyStr "x"),
            ("XMP:GPSLatitude", Value.pyStr "1.0")])
    ∧ parseExifGps [("GPS:Latitude", Value.pyStr "x"), ("XMP:GPSLatitude", Value.pyStr "1.0")]
        = parseExifGps (restrictP [("GPS:Latitude", Value.pyStr "x"),
            ("XMP:GPSLatitude", Value.pyStr "1.0")] tier1Keys) :=
  ⟨rfl,
   ((gps_tier_priority [("GPS:Latitude", Value.pyStr "x"),
      ("XMP:GPSLatitude", Value.pyStr "1.0")]).1 rfl).1,
   ((gps_tier_priority [("GPS:Latitude", Value.pyStr "x"),
      ("XMP:GPSLatitude", Value.pyStr "1.0")]).1 rfl).2⟩

/-! ## Claim C8: reverse geocoding fails open and caches by rounded key -/

theorem lookAL_setAL_self {α : Type} (l : List (String × α)) (k : String) (v : α) :
    lookAL (setAL l k v) k = some v := by
  induction l with
  | nil => simp [setAL, lookAL]
  | cons kv rest ih =>
    obtain ⟨k', v'⟩ := kv
    by_cases h : k' = k
    · simp [setAL, h, lookAL]
    · simp [setAL, h, lookAL, ih]

/-- The online collaborator is unavailable, raises, or yields no location. -/
def onlineFails (env : GeoEnv) (la lo : ℚ) : Prop :=
  match env.online with
  | none => True
  | some f => f la lo = .error () ∨ f la lo = .ok none

/-- The offline collaborator is unavailable, raises, or yields no results. -/
def offlineFails (env : GeoEnv) (la lo : ℚ) : Prop :=
  match env.offline with
  | none => True
  | some f => f la lo = .error () ∨ f la lo = .ok []

/-- C8: reverse geocoding fails open — when both collaborators are
unavailable, raise, or yield nothing, the lookup returns the empty result
(and never aborts: the model is a total function); a cache hit under the
6-decimal rounded key is returned as-is; a provider success is cached under
that key, so a second lookup of coordinates rounding to the same key returns
the cached result unchanged. -/
theorem reverse_geocode_fail_open_cache (env : GeoEnv) (st : GeoState) (la lo : ℚ) :
    (lookAL st (geoKey la lo) = none → onlineFails env la lo → offlineFails env la lo →
      reverseGeocode env st la lo = ([], st))
    ∧ (∀ r, lookAL st (geoKey la lo) = some r → reverseGeocode env st la lo = (r, st))
    ∧ (∀ r st', lookAL st (geoKey la lo) = none → reverseGeocode env st la lo = (r, st') →
        st' = setAL st (geoKey la lo) r ∨ (r = [] ∧ st' = st))
    ∧ (∀ r st' (la2 lo2 : ℚ), geoKey la2 lo2 = geoKey la lo →
        reverseGeocode env st la lo = (r, st') → st' = setAL st (geoKey la lo) r →
        reverseGeocode env st' la2 lo2 = (r, st')) := by
  refine ⟨?_, ?_, ?_, ?_⟩
  · intro hmiss hon hoff
    unfold reverseGeocode
    dsimp only
    rw [hmiss]
    unfold onlineFails at hon
    unfold offlineFails at hoff
    cases hoe : env.online with
    | some f =>
      rw [hoe] at hon
      cases hfe : env.offline with
      | some g =>
        rw [hfe] at hoff
        rcases hon with hf | hf <;> rcases hoff with hg | hg <;>
          simp [hoe, hfe, hf, hg]
      | none =>
        rcases hon with hf | hf <;> simp [hoe, hfe, hf]
    | none =>
      cases hfe : env.offline with
      | some g =>
        rw [hfe] at hoff
        rcases hoff with hg | hg <;> simp [hoe, hfe, hg]
      | none => simp [hoe, hfe]
  · intro r h
    unfold reverseGeocode
    dsimp only
    rw [h]
  · intro r st' hmiss h
    unfold reverseGeocode at h
    dsimp only at h
    rw [hmiss] at h
    dsimp only at h
    cases hoe : env.online with
    | some f =>
      rw [hoe] at h
      dsimp only at h
      cases hf : f la lo with
      | error e =>
        rw [hf] at h
        dsimp only at h
        cases hfe : env.offline with
        | some g =>
          rw [hfe] at h
          dsimp only at h
          cases hg : g la lo with
          | error e2 =>
            rw [hg] at h
            dsimp only at h
            obtain ⟨h1, h2⟩ := Prod.mk.injEq .. ▸ h
            exact Or.inr ⟨h1.symm, h2.symm⟩
          | ok results =>
            rw [hg] at h
            cases results with
            | nil =>
              dsimp only at h
              obtain ⟨h1, h2⟩ := Prod.mk.injEq .. ▸ h
              exact Or.inr ⟨h1.symm, h2.symm⟩
            | cons rec rest =>
              dsimp only at h
              obtain ⟨h1, h2⟩ := Prod.mk.injEq .. ▸ h
              exact Or.inl (by rw [← h1, ← h2])
        | none =>
          rw [hfe] at h
          dsimp only at h
          obtain ⟨h1, h2⟩ := Prod.mk.injEq .. ▸ h
          exact Or.inr ⟨h1.symm, h2.symm⟩
      | ok oloc =>
        rw [hf] at h
        cases oloc with
        | some addr =>
          dsimp only at h
          obtain ⟨h1, h2⟩ := Prod.mk.injEq .. ▸ h
          exact Or.inl (by rw [← h1, ← h2])
        | none =>
          dsimp only at h
          cases hfe : env.offline with
          | some g =>
            rw [hfe] at h
            dsimp only at h
            cases hg : g la lo with
            | error e2 =>
              rw [hg] at h
              dsimp only at h
              obtain ⟨h1, h2⟩ := Prod.mk.injEq .. ▸ h
              exact Or.inr ⟨h1.symm, h2.symm⟩
            | ok results =>
              rw [hg] at h
              cases results with
              | nil =>
                dsimp only at h
                obtain ⟨h1, h2⟩ := Prod.mk.injEq .. ▸ h
                exact Or.inr ⟨h1.symm, h2.symm⟩
              | cons rec rest =>
                dsimp only at h
                obtain ⟨h1, h2⟩ := Prod.mk.injEq .. ▸ h
                exact Or.inl (by rw [← h1, ← h2])
          | none =>
            rw [hfe] at h
            dsimp only at h
            obtain ⟨h1, h2⟩ := Prod.mk.injEq .. ▸ h
            exact Or.inr ⟨h1.symm, h2.symm⟩
    | none =>
      rw [hoe] at h
      dsimp only at h
      cases hfe : env.offline with
      | some g =>
        rw [hfe] at h
        dsimp only at h
        cases hg : g la lo with
        | error e2 =>
          rw [hg] at h
          dsimp only at h
          obtain ⟨h1, h2⟩ := Prod.mk.injEq .. ▸ h
          exact Or.inr ⟨h1.symm, h2.symm⟩
        | ok results =>
          rw [hg] at h
          cases results with
          | nil =>
            dsimp only at h
            obtain ⟨h1, h2⟩ := Prod.mk.injEq .. ▸ h
            exact Or.inr ⟨h1.symm, h2.symm⟩
          | cons rec rest =>
            dsimp only at h
            obtain ⟨h1, h2⟩ := Prod.mk.injEq .. ▸ h
            exact Or.inl (by rw [← h1, ← h2])
      | none =>
        rw [hfe] at h
        dsimp only at h
        obtain ⟨h1, h2⟩ := Prod.mk.injEq .. ▸ h
        exact Or.inr ⟨h1.symm, h2.symm⟩
  · intro r st' la2 lo2 hkey _ hcache
    unfold reverseGeocode
    dsimp only
    rw [hkey, hcache, lookAL_setAL_self]

/-- A concrete online address record for exercising the geocoder model. -/
def addrW : List (String × String) := [("city", "Springfield"), ("country", "USA")]

/-- A geocoding environment whose online collaborator always succeeds. -/
def geoEnvW : GeoEnv := ⟨some fun _ _ => .ok (some addrW), none⟩

/-- A geocoding environment whose online collaborator always raises and
whose offline collaborator is unavailable. -/
def geoFailEnvW : GeoEnv := ⟨some fun _ _ => .error (), none⟩

theorem reverse_geocode_fail_open_cache_witness :
    reverseGeocode geoFailEnvW [] 0 0 = ([], [])
    ∧ reverseGeocode geoEnvW (setAL [] (geoKey 0 0) (onlineLocInfo addrW)) 0 0
        = (onlineLocInfo addrW, setAL [] (geoKey 0 0) (onlineLocInfo addrW)) :=
  ⟨(reverse_geocode_fail_open_cache geoFailEnvW [] 0 0).1 rfl (Or.inl rfl) True.intro,
   (reverse_geocode_fail_open_cache geoEnvW [] 0 0).2.2.2 (onlineLocInfo addrW)
     (setAL [] (geoKey 0 0) (onlineLocInfo addrW)) 0 0 rfl rfl rfl⟩

theorem privacy_risk_monotone_witness :
    hasGpsSignal [("GPSLatitude", Value.pyFloat 1), ("SerialNumber", Value.pyStr "123")] = true
    ∧ hasSerialSignal [("GPSLatitude", Value.pyFloat 1), ("SerialNumber", Value.pyStr "123")] = true
    ∧ getA (assessPrivacyImplications
        [("GPSLatitude", Value.pyFloat 1), ("SerialNumber", Value.pyStr "123")]
        (.pyStr "Camera")) "PrivacyRisk" = some (.pyStr "High")
    ∧ getA (assessPrivacyImplications
        [("GPSLatitude", Value.pyFloat 1), ("SerialNumber", Value.pyStr "123")]
        (.pyStr "Camera")) "PrivacyRisk" ≠ some (.pyStr "Medium") :=
  ⟨rfl, rfl,
    ((privacy_risk_monotone
      [("GPSLatitude", Value.pyFloat 1), ("SerialNumber", Value.pyStr "123")]
      (.pyStr "Camera")).2.2 rfl rfl).1,
    ((privacy_risk_monotone
      [("GPSLatitude", Value.pyFloat 1), ("SerialNumber", Value.pyStr "123")]
      (.pyStr "Camera")).2.2 rfl rfl).2⟩

end ImgX
